import Mathlib

/-!
# RoutingManager (map/routing_manager.cpp): a shallow embedding

The manager is a single-threaded, callback-driven object.  Its member functions are
embedded as functions on an explicit state.  What the manager calls that lives outside
`routing_manager.cpp` (the routing session, the rendering engine, geometry and string
helpers) is taken as a parameter, collected in `Env`: a theorem quantified over `Env` holds
for every behaviour of those collaborators.  The route points layout (map/routing_mark.cpp)
is modelled from section 4.1 of the spec, in the namespace `RoutePointsLayout`.

Conventions.
* Every outward call is appended to `State.trace` (oldest first), so "calls" and "does not
  call" are statements about the trace.
* A member function returns `Except Fault State`: `Fault.nullDrapeEngine` and
  `Fault.nullBmManager` are dereferences of a null `m_drapeEngine` and a null `m_bmManager`,
  `Fault.checkFailed` is a failed `CHECK`, `Fault.emptyVector` a `front()` or `back()` of an
  empty vector.
* `ASSERT` and `ASSERT_THREAD_CHECKER` are debug-only checks and have no effect in a release
  build; the embedding follows the release build, so they do not appear in the definitions.
  `CHECK` is active in every build and is embedded as a fault.
* Coordinates are `double` in the source and exact rationals here.
-/

namespace RoutingManager

/-! ## Data -/

/-- The type m2::PointD, with rational coordinates. -/
structure PointD where
  x : ℚ
  y : ℚ
deriving DecidableEq

/-- The type m2::RectD (an axis-parallel rectangle, empty when default-constructed); its
operations are part of `Env`. -/
inductive RectD
  | empty
  | box (minX minY maxX maxY : ℚ)
deriving DecidableEq

/-- The enumeration routing::RouterType, with the `Count` sentinel the source switches over. -/
inductive RouterType
  | Vehicle
  | Pedestrian
  | Bicycle
  | Taxi
  | Count
deriving DecidableEq, Repr

/-- The result codes routing::IRouter::ResultCode that the manager and the spec name. -/
inductive ResultCode
  | NoError
  | Cancelled
  | NoCurrentPosition
  | NeedMoreMaps
  | RouteNotFound
  | InternalError
deriving DecidableEq, Repr

/-- The enumeration RouteMarkType: the role of a route point. -/
inductive RouteMarkType
  | Start
  | Intermediate
  | Finish
deriving DecidableEq, Repr

/-- The struct RouteMarkData, with the fields the manager reads and writes. -/
structure RouteMarkData where
  m_pointType : RouteMarkType
  m_intermediateIndex : Int
  m_isVisible : Bool
  m_isMyPosition : Bool
  m_position : PointD
deriving DecidableEq

/-- A handle of an installed route segment (dp::DrapeID). -/
abbrev DrapeID := Nat

/-- The enumeration df::RouteType. -/
inductive DfRouteType
  | Car
  | Pedestrian
  | Bicycle
  | Taxi
deriving DecidableEq, Repr

/-- The colour constants df::kRouteColor, df::kRoutePedestrian and df::kRouteBicycle. -/
inductive ColorConstant
  | kRouteColor
  | kRoutePedestrian
  | kRouteBicycle
deriving DecidableEq, Repr

/-- What the manager reads from a routing::Route. -/
structure Route where
  poly : List PointD
  traffic : List Nat
  turnsDistances : List ℚ
  absentCountries : List String
  isValid : Bool
deriving DecidableEq

/-- The struct df::RouteSegment.  A field the manager leaves untouched keeps the value of the
default constructor, which these sources do not show: `none` stands for it. -/
structure RouteSegment where
  m_polyline : List PointD
  m_routeType : Option DfRouteType
  m_color : Option ColorConstant
  m_pattern : Option (ℚ × ℚ)
  m_traffic : List Nat
  m_turns : List ℚ
deriving DecidableEq

/-- The fields of location::GpsInfo the manager reads. -/
structure GpsInfo where
  m_latitude : ℚ
  m_longitude : ℚ
deriving DecidableEq

/-- The struct location::RouteMatchingInfo: empty when default-constructed, filled by the session. -/
structure RouteMatchingInfo where
  matched : Option (PointD × Nat)
deriving DecidableEq

/-- The values of RoutingSession::State that the manager distinguishes. -/
inductive SessionState
  | RouteNeedRebuild
  | RouteRebuilding
  | Other
deriving DecidableEq, Repr

/-- The router that SetRouterImpl creates. -/
inductive RouterKind
  | PedestrianAStarBidirectional
  | BicycleAStarBidirectional
  | Car
deriving DecidableEq, Repr

/-- The calls the manager makes on the rendering engine (df::DrapeEngine). -/
inductive EngineCall
  | RemoveAllRoutePreviewSegments
  | StopLocationFollow
  | SetModelViewRect (rect : RectD) (applyRotation : Bool) (zoom : Int) (isAnim : Bool)
  | RemoveRouteSegment (segmentId : DrapeID) (deactivateFollowing : Bool)
  | AddRouteSegment (segment : RouteSegment) (returned : DrapeID)
  | AddRoutePreviewSegment (startPt finishPt : PointD)
  | DeactivateRouteFollowing
  | SetGpsInfo (info : GpsInfo) (isNavigable : Bool) (routeMatchingInfo : RouteMatchingInfo)
  | EnablePerspective
deriving DecidableEq

/-- Every outward call of the manager, in the order made. -/
inductive Event
  | Engine (call : EngineCall)
  | RoutingCallback (code : ResultCode) (absentCountries : List String)
  | SessionEmitCloseRoutingEvent
  | SessionReset
  | SessionSetUserCurrentPosition (position : PointD)
  | SessionBuildRoute (startPoint endPoint : PointD) (timeoutSec : Nat)
  | SessionRebuildRoute (startPoint : PointD) (timeoutSec : Nat) (rebuildingState : SessionState)
  | SessionEnableFollowMode
  | SessionDisableFollowMode
  | SessionOnLocationPositionChanged (info : GpsInfo)
  | SessionSetRoutingSettings (kind : RouterKind)
  | SessionSetRouter (kind : RouterKind) (withFetcher : Bool)
  | DelegateOnRouteFollow (type : RouterType)
  | DelegateRegisterCountryFilesOnRoute
  | SendPushWooshTag (type : RouterType) (isP2P : Bool)
  | TrackingAddLocation (info : GpsInfo) (traffic : Nat)
deriving DecidableEq

/-- The ways a member function can fail to return. -/
inductive Fault
  | nullDrapeEngine
  | nullBmManager
  | checkFailed
  | emptyVector
deriving DecidableEq, Repr

/-- The settings store (platform/settings): string values by key, and the boolean stored under
tracking::Reporter::kEnableTrackingKey. -/
structure Settings where
  str : String → Option String
  enableTracking : Option Bool

/-- The behaviour of the code outside routing_manager.cpp, for a routing session with states
`σ` and a rendering engine with states `ε`. -/
structure Env (σ ε : Type) where
  IsBuilt : σ → Bool
  IsActive : σ → Bool
  IsFollowing : σ → Bool
  IsNavigable : σ → Bool
  GetRoute : σ → Route
  EmitCloseRoutingEvent : σ → σ
  Reset : σ → σ
  SetUserCurrentPosition : PointD → σ → σ
  SessionBuildRoute : PointD → PointD → Nat → σ → σ
  RebuildRoute : PointD → Nat → SessionState → σ → σ
  EnableFollowMode : σ → Bool × σ
  DisableFollowMode : σ → Bool × σ
  OnLocationPositionChanged : GpsInfo → σ → SessionState × σ
  MatchLocationToRoute : GpsInfo → RouteMatchingInfo → σ → GpsInfo × RouteMatchingInfo
  MatchTraffic : RouteMatchingInfo → σ → Nat
  SetRoutingSettings : RouterKind → σ → σ
  SessionSetRouter : RouterKind → Bool → σ → σ
  GetMyPosition : ε → Option PointD
  AddRouteSegment : RouteSegment → ε → DrapeID × ε
  EngineApply : EngineCall → ε → ε
  EqualDxDy : PointD → PointD → ℚ → Bool
  FromLatLon : ℚ → ℚ → PointD
  RectEmpty : RectD
  RectAdd : RectD → PointD → RectD
  RectScale : RectD → ℚ → RectD
  GetLimitRect : List PointD → RectD
  FromString : String → RouterType
  ToString : RouterType → String
  kMaxIntermediatePointsCount : Nat

/-- The members of RoutingManager, the routing marks of the bookmark manager it points to, the
settings store, and the log of outward calls. -/
structure State (σ ε : Type) where
  m_drapeEngine : Option ε
  m_bmManager : Option (List RouteMarkData)
  m_drapeSubroutes : List DrapeID
  m_currentRouterType : RouterType
  m_routingSession : σ
  settings : Settings
  trace : List Event

/-- The key under which the router type is stored. -/
def kRouterTypeKey : String := "router"

/-- The factor by which a route rectangle is enlarged before it is shown. -/
def kRouteScaleMultiplier : ℚ := 3 / 2

/-- The tolerance of the equal-points check in BuildRoute (1e-7). -/
def kEps : ℚ := 1 / 10000000

/-! ## The route points layout -/

namespace RoutePointsLayout

/-- Modelled from the spec: the test by which RoutePointsLayout finds a point
(map/routing_mark.cpp is not among the sources).  Section 4.1 addresses an entry by role and,
for an intermediate point, by index. -/
def Matches (type : RouteMarkType) (intermediateIndex : Int) (m : RouteMarkData) : Bool :=
  m.m_pointType == type && (type != RouteMarkType.Intermediate || m.m_intermediateIndex == intermediateIndex)

/-- Modelled from the spec: RoutePointsLayout::RemoveRoutePoint (map/routing_mark.cpp is not
among the sources).  Section 4.1, remove: "removes the matching entry; no-op if absent". -/
def RemoveRoutePoint (type : RouteMarkType) (intermediateIndex : Int) (marks : List RouteMarkData) :
    List RouteMarkData :=
  marks.filter (fun m => !Matches type intermediateIndex m)

/-- Modelled from the spec: RoutePointsLayout::AddRoutePoint (map/routing_mark.cpp is not among
the sources).  Section 4.1: the point is appended, "preserving insertion order"; "intermediate
additions are capped at a fixed maximum", and "exceeding the cap is rejected, not truncated". -/
def AddRoutePoint (cap : Nat) (data : RouteMarkData) (marks : List RouteMarkData) :
    List RouteMarkData :=
  if data.m_pointType = RouteMarkType.Intermediate ∧
      cap ≤ (marks.filter (fun m => m.m_pointType == RouteMarkType.Intermediate)).length then
    marks
  else
    marks ++ [data]

/-- Modelled from the spec: RoutePointsLayout::GetRoutePoints (map/routing_mark.cpp is not among
the sources).  Section 4.1, snapshot: "an ordered materialization (Start, intermediates in
order, Finish)" of all stored points, whatever their visibility. -/
def GetRoutePoints (marks : List RouteMarkData) : List RouteMarkData :=
  marks.filter (fun m => m.m_pointType == RouteMarkType.Start) ++
    (marks.filter (fun m => m.m_pointType == RouteMarkType.Intermediate) ++
      marks.filter (fun m => m.m_pointType == RouteMarkType.Finish))

/-- Modelled from the spec: the effect of `GetRoutePoint(type, index)->SetIsVisible(false)` on the
stored marks (map/routing_mark.cpp is not among the sources): the first matching entry is
hidden, and nothing changes when there is none. -/
def HideRoutePoint (type : RouteMarkType) (intermediateIndex : Int) :
    List RouteMarkData → List RouteMarkData
  | [] => []
  | m :: rest =>
    if Matches type intermediateIndex m then { m with m_isVisible := false } :: rest
    else m :: HideRoutePoint type intermediateIndex rest

end RoutePointsLayout

/-! ## Member functions -/

section Members

variable {σ ε : Type}

/-- The call `m_drapeEngine->call(...)` with no null check before it. -/
def sendEngine (env : Env σ ε) (call : EngineCall) (s : State σ ε) : Except Fault (State σ ε) :=
  match s.m_drapeEngine with
  | none => throw Fault.nullDrapeEngine
  | some e =>
    pure { s with m_drapeEngine := some (env.EngineApply call e)
                  trace := s.trace ++ [Event.Engine call] }

/-- The statement `if (m_drapeEngine != nullptr) m_drapeEngine->call(...)`. -/
def sendEngineIfAttached (env : Env σ ε) (call : EngineCall) (s : State σ ε) :
    Except Fault (State σ ε) :=
  if s.m_drapeEngine.isSome then sendEngine env call s else pure s

/-- RoutingManager::CallRouteBuilded (lines 508-512). -/
def CallRouteBuilded (code : ResultCode) (absentCountries : List String) (s : State σ ε) :
    State σ ε :=
  { s with trace := s.trace ++ [Event.RoutingCallback code absentCountries] }

/-- RoutingManager::GetLastUsedRouter (lines 141-155). -/
def GetLastUsedRouter (env : Env σ ε) (s : State σ ε) : RouterType :=
  match s.settings.str kRouterTypeKey with
  | none => RouterType.Vehicle
  | some routerTypeStr =>
    match env.FromString routerTypeStr with
    | RouterType.Pedestrian => RouterType.Pedestrian
    | RouterType.Bicycle => RouterType.Bicycle
    | _ => RouterType.Vehicle

/-- RoutingManager::GetBestRouter (lines 134-139). -/
def GetBestRouter (env : Env σ ε) (_startPoint _finalPoint : PointD) (s : State σ ε) : RouterType :=
  GetLastUsedRouter env s

/-- RoutingManager::SetLastUsedRouter (lines 297-300): settings::Set(kRouterTypeKey, ToString(type)). -/
def SetLastUsedRouter (env : Env σ ε) (type : RouterType) (s : State σ ε) : State σ ε :=
  { s with settings :=
      { s.settings with
        str := fun key => if key = kRouterTypeKey then some (env.ToString type) else s.settings.str key } }

/-- RoutingManager::SetRouterImpl (lines 157-209). -/
def SetRouterImpl (env : Env σ ε) (type : RouterType) (s : State σ ε) : State σ ε :=
  let s := { s with trace := s.trace ++ [Event.DelegateRegisterCountryFilesOnRoute] }
  let kind : RouterKind :=
    if type = RouterType.Pedestrian then RouterKind.PedestrianAStarBidirectional
    else if type = RouterType.Bicycle then RouterKind.BicycleAStarBidirectional
    else RouterKind.Car
  let withFetcher : Bool := kind == RouterKind.Car
  let s := { s with m_routingSession := env.SetRoutingSettings kind s.m_routingSession
                    trace := s.trace ++ [Event.SessionSetRoutingSettings kind] }
  let s := { s with m_routingSession := env.SessionSetRouter kind withFetcher s.m_routingSession
                    trace := s.trace ++ [Event.SessionSetRouter kind withFetcher] }
  { s with m_currentRouterType := type }

/-- RoutingManager::SetRouter (lines 604-613). -/
def SetRouter (env : Env σ ε) (type : RouterType) (s : State σ ε) : State σ ε :=
  if s.m_currentRouterType = type then s
  else SetRouterImpl env type (SetLastUsedRouter env type s)

/-- RoutingManager::RemoveRoute (lines 211-219). -/
def RemoveRoute (env : Env σ ε) (deactivateFollowing : Bool) (s : State σ ε) :
    Except Fault (State σ ε) :=
  if s.m_drapeEngine.isSome then do
    let s ← s.m_drapeSubroutes.foldlM
      (fun st segmentId => sendEngine env (EngineCall.RemoveRouteSegment segmentId deactivateFollowing) st) s
    pure { s with m_drapeSubroutes := [] }
  else
    pure s

/-- The segment InsertRoute fills in (lines 232-260); `Count` is the `default:` case, whose
ASSERT leaves the segment as constructed. -/
def makeSegment (type : RouterType) (route : Route) : RouteSegment :=
  let segment : RouteSegment :=
    { m_polyline := route.poly, m_routeType := none, m_color := none, m_pattern := none,
      m_traffic := [], m_turns := [] }
  match type with
  | RouterType.Vehicle =>
    { segment with m_routeType := some DfRouteType.Car, m_color := some ColorConstant.kRouteColor,
                   m_traffic := route.traffic, m_turns := route.turnsDistances }
  | RouterType.Pedestrian =>
    { segment with m_routeType := some DfRouteType.Pedestrian,
                   m_color := some ColorConstant.kRoutePedestrian, m_pattern := some (4, 2) }
  | RouterType.Bicycle =>
    { segment with m_routeType := some DfRouteType.Bicycle,
                   m_color := some ColorConstant.kRouteBicycle, m_pattern := some (8, 2),
                   m_turns := route.turnsDistances }
  | RouterType.Taxi =>
    { segment with m_routeType := some DfRouteType.Taxi, m_color := some ColorConstant.kRouteColor,
                   m_traffic := route.traffic, m_turns := route.turnsDistances }
  | RouterType.Count => segment

/-- RoutingManager::InsertRoute (lines 221-263). -/
def InsertRoute (env : Env σ ε) (route : Route) (s : State σ ε) : Except Fault (State σ ε) :=
  if s.m_drapeEngine.isNone then pure s
  else if route.poly.length < 2 then pure s
  else
    let segment := makeSegment s.m_currentRouterType route
    match s.m_drapeEngine with
    | none => throw Fault.nullDrapeEngine
    | some e =>
      let r := env.AddRouteSegment segment e
      pure { s with m_drapeEngine := some r.2
                    m_drapeSubroutes := s.m_drapeSubroutes ++ [r.1]
                    trace := s.trace ++ [Event.Engine (EngineCall.AddRouteSegment segment r.1)] }

/-- RoutingManager::OnBuildRouteReady (lines 84-118). -/
def OnBuildRouteReady (env : Env σ ε) (route : Route) (code : ResultCode) (s : State σ ε) :
    Except Fault (State σ ε) := do
  let s ← sendEngineIfAttached env EngineCall.RemoveAllRoutePreviewSegments s
  if code = ResultCode.NoError then
    let s ← InsertRoute env route s
    let s ← sendEngineIfAttached env EngineCall.StopLocationFollow s
    let s ←
      if route.isValid then
        let routeRect := env.RectScale (env.GetLimitRect route.poly) kRouteScaleMultiplier
        sendEngineIfAttached env (EngineCall.SetModelViewRect routeRect true (-1) true) s
      else pure s
    pure (CallRouteBuilded code [] s)
  else
    let absentCountries := route.absentCountries
    let s ← if code ≠ ResultCode.NeedMoreMaps then RemoveRoute env true s else pure s
    pure (CallRouteBuilded code absentCountries s)

/-- RoutingManager::OnRebuildRouteReady (lines 120-132). -/
def OnRebuildRouteReady (env : Env σ ε) (route : Route) (code : ResultCode) (s : State σ ε) :
    Except Fault (State σ ε) := do
  let s ← sendEngineIfAttached env EngineCall.RemoveAllRoutePreviewSegments s
  if code ≠ ResultCode.NoError then
    pure s
  else
    let s ← RemoveRoute env false s
    let s ← InsertRoute env route s
    pure (CallRouteBuilded code [] s)

/-- RoutingManager::CloseRouting (lines 277-295). -/
def CloseRouting (env : Env σ ε) (removeRoutePoints : Bool) (s : State σ ε) :
    Except Fault (State σ ε) := do
  let s ← sendEngineIfAttached env EngineCall.RemoveAllRoutePreviewSegments s
  let s :=
    if env.IsBuilt s.m_routingSession then
      { s with m_routingSession := env.EmitCloseRoutingEvent s.m_routingSession
               trace := s.trace ++ [Event.SessionEmitCloseRoutingEvent] }
    else s
  let s := { s with m_routingSession := env.Reset s.m_routingSession
                    trace := s.trace ++ [Event.SessionReset] }
  let s ← RemoveRoute env true s
  if removeRoutePoints then
    match s.m_bmManager with
    | none => throw Fault.nullBmManager
    | some _ => pure { s with m_bmManager := some [] }
  else
    pure s

/-- RoutingManager::IsRoutingActive (declared in the header): m_routingSession.IsActive(). -/
def IsRoutingActive (env : Env σ ε) (s : State σ ε) : Bool :=
  env.IsActive s.m_routingSession

/-- RoutingManager::GetRoutePoints (lines 322-330). -/
def GetRoutePoints (s : State σ ε) : Except Fault (List RouteMarkData) :=
  match s.m_bmManager with
  | none => throw Fault.nullBmManager
  | some marks => pure (RoutePointsLayout.GetRoutePoints marks)

/-- RoutingManager::HideRoutePoint (lines 302-312). -/
def HideRoutePoint (type : RouteMarkType) (intermediateIndex : Int) (s : State σ ε) :
    Except Fault (State σ ε) :=
  match s.m_bmManager with
  | none => throw Fault.nullBmManager
  | some marks =>
    pure { s with m_bmManager := some (RoutePointsLayout.HideRoutePoint type intermediateIndex marks) }

/-- RoutingManager::AddRoutePoint (lines 341-353). -/
def AddRoutePoint (env : Env σ ε) (markData : RouteMarkData) (s : State σ ε) :
    Except Fault (State σ ε) :=
  match s.m_bmManager with
  | none => throw Fault.nullBmManager
  | some marks =>
    let marks :=
      if markData.m_pointType = RouteMarkType.Start ∨ markData.m_pointType = RouteMarkType.Finish then
        RoutePointsLayout.RemoveRoutePoint markData.m_pointType 0 marks
      else marks
    let markData := { markData with m_isVisible := !markData.m_isMyPosition }
    let cap := env.kMaxIntermediatePointsCount
    pure { s with m_bmManager := some (RoutePointsLayout.AddRoutePoint cap markData marks) }

/-- RoutingManager::FollowRoute (lines 265-275). -/
def FollowRoute (env : Env σ ε) (s : State σ ε) : Except Fault (State σ ε) :=
  let r := env.EnableFollowMode s.m_routingSession
  let s := { s with m_routingSession := r.2, trace := s.trace ++ [Event.SessionEnableFollowMode] }
  if !r.1 then pure s
  else
    let s := { s with trace := s.trace ++ [Event.DelegateOnRouteFollow s.m_currentRouterType] }
    HideRoutePoint RouteMarkType.Start 0 s

/-- The loop "Update my position" of BuildRoute (lines 394-407): `none` when the engine gives
no position, otherwise the points with every live-position point moved to it. -/
def updateMyPosition (env : Env σ ε) (engine : Option ε) :
    List RouteMarkData → Except Fault (Option (List RouteMarkData))
  | [] => pure (some [])
  | p :: rest =>
    if !p.m_isMyPosition then do
      let r ← updateMyPosition env engine rest
      pure (r.map (fun ps => p :: ps))
    else
      match engine with
      | none => throw Fault.nullDrapeEngine
      | some e =>
        match env.GetMyPosition e with
        | none => pure none
        | some myPos => do
          let r ← updateMyPosition env engine rest
          pure (r.map (fun ps => { p with m_position := myPos } :: ps))

/-- The loop "Check for equal points" of BuildRoute (lines 409-422): whether some
`routePoints[i]` and `routePoints[j]`, `i < j`, are equal up to `eps`. -/
def hasEqualPoints (env : Env σ ε) (eps : ℚ) : List RouteMarkData → Bool
  | [] => false
  | p :: rest =>
    rest.any (fun q => env.EqualDxDy p.m_position q.m_position eps) || hasEqualPoints env eps rest

/-- The loop "Show preview" of BuildRoute (lines 456-462): one preview segment for every two
neighbouring points, the rectangle growing by both. -/
def addPreviewSegments (env : Env σ ε) :
    List RouteMarkData → RectD → State σ ε → Except Fault (RectD × State σ ε)
  | [], rect, s => pure (rect, s)
  | p :: rest, rect, s =>
    match rest with
    | [] => pure (rect, s)
    | q :: _ => do
      let rect := env.RectAdd (env.RectAdd rect p.m_position) q.m_position
      let s ← sendEngine env (EngineCall.AddRoutePreviewSegment p.m_position q.m_position) s
      addPreviewSegments env rest rect s

/-- The second half of BuildRoute (lines 424-472), reached once the points are validated: the
marketing tag, the implicit close of an active route, the preview, and the submission of the
first and the last point to the routing session. -/
def startBuild (env : Env σ ε) (timeoutSec : Nat) (routePoints : List RouteMarkData)
    (front back : RouteMarkData) (s : State σ ε) : Except Fault (State σ ε) := do
  let isP2P := !front.m_isMyPosition && !back.m_isMyPosition
  if s.m_currentRouterType = RouterType.Count then throw Fault.checkFailed
  else
    let s := { s with trace := s.trace ++ [Event.SendPushWooshTag s.m_currentRouterType isP2P] }
    let s ← if IsRoutingActive env s then CloseRouting env false s else pure s
    let s ←
      if s.m_drapeEngine.isSome then do
        let r ← addPreviewSegments env routePoints env.RectEmpty s
        let rect := env.RectScale r.1 kRouteScaleMultiplier
        sendEngine env (EngineCall.SetModelViewRect rect true (-1) true) r.2
      else pure s
    let s := { s with m_routingSession := env.SetUserCurrentPosition front.m_position s.m_routingSession
                      trace := s.trace ++ [Event.SessionSetUserCurrentPosition front.m_position] }
    pure { s with
      m_routingSession :=
        env.SessionBuildRoute front.m_position back.m_position timeoutSec s.m_routingSession
      trace := s.trace ++ [Event.SessionBuildRoute front.m_position back.m_position timeoutSec] }

/-- RoutingManager::BuildRoute (lines 381-473): the validation of lines 386-422, then
`startBuild` with `routePoints.front()` and `routePoints.back()`. -/
def BuildRoute (env : Env σ ε) (timeoutSec : Nat) (s : State σ ε) : Except Fault (State σ ε) := do
  let routePoints ← GetRoutePoints s
  if routePoints.length < 2 then
    CloseRouting env false (CallRouteBuilded ResultCode.Cancelled [] s)
  else
    match ← updateMyPosition env s.m_drapeEngine routePoints with
    | none => pure (CallRouteBuilded ResultCode.NoCurrentPosition [] s)
    | some routePoints =>
      if hasEqualPoints env kEps routePoints then
        CloseRouting env false (CallRouteBuilded ResultCode.Cancelled [] s)
      else
        match routePoints.head?, routePoints.getLast? with
        | some front, some back => startBuild env timeoutSec routePoints front back s
        | _, _ => throw Fault.emptyVector

/-- RoutingManager::SetUserCurrentPosition (lines 475-479). -/
def SetUserCurrentPosition (env : Env σ ε) (position : PointD) (s : State σ ε) : State σ ε :=
  if IsRoutingActive env s then
    { s with m_routingSession := env.SetUserCurrentPosition position s.m_routingSession
             trace := s.trace ++ [Event.SessionSetUserCurrentPosition position] }
  else s

/-- RoutingManager::DisableFollowMode (lines 481-488), with the value it returns. -/
def DisableFollowMode (env : Env σ ε) (s : State σ ε) : Except Fault (Bool × State σ ε) := do
  let r := env.DisableFollowMode s.m_routingSession
  let s := { s with m_routingSession := r.2, trace := s.trace ++ [Event.SessionDisableFollowMode] }
  let disabled := r.1
  if disabled && s.m_drapeEngine.isSome then
    let s ← sendEngine env EngineCall.DeactivateRouteFollowing s
    pure (disabled, s)
  else
    pure (disabled, s)

/-- RoutingManager::CheckLocationForRouting (lines 490-506). -/
def CheckLocationForRouting (env : Env σ ε) (info : GpsInfo) (s : State σ ε) : State σ ε :=
  if !IsRoutingActive env s then s
  else
    let r := env.OnLocationPositionChanged info s.m_routingSession
    let s := { s with m_routingSession := r.2
                      trace := s.trace ++ [Event.SessionOnLocationPositionChanged info] }
    if r.1 = SessionState.RouteNeedRebuild then
      let startPoint := env.FromLatLon info.m_latitude info.m_longitude
      { s with
        m_routingSession :=
          env.RebuildRoute startPoint 0 SessionState.RouteRebuilding s.m_routingSession
        trace := s.trace ++ [Event.SessionRebuildRoute startPoint 0 SessionState.RouteRebuilding] }
    else s

/-- RoutingManager::MatchLocationToRoute (lines 514-521): the two arguments as it leaves them. -/
def MatchLocationToRoute (env : Env σ ε) (location : GpsInfo) (routeMatchingInfo : RouteMatchingInfo)
    (s : State σ ε) : GpsInfo × RouteMatchingInfo :=
  if !IsRoutingActive env s then (location, routeMatchingInfo)
  else env.MatchLocationToRoute location routeMatchingInfo s.m_routingSession

/-- RoutingManager::IsTrackingReporterEnabled (lines 591-602). -/
def IsTrackingReporterEnabled (env : Env σ ε) (s : State σ ε) : Bool :=
  if s.m_currentRouterType ≠ RouterType.Vehicle then false
  else if !env.IsFollowing s.m_routingSession then false
  else
    match s.settings.enableTracking with
    | some enableTracking => enableTracking
    | none => false

/-- RoutingManager::OnLocationUpdate (lines 523-533). -/
def OnLocationUpdate (env : Env σ ε) (info : GpsInfo) (s : State σ ε) : Except Fault (State σ ε) := do
  let routeMatchingInfo : RouteMatchingInfo := { matched := none }
  let s := CheckLocationForRouting env info s
  let m := MatchLocationToRoute env info routeMatchingInfo s
  let info := m.1
  let routeMatchingInfo := m.2
  let s ← sendEngine env
    (EngineCall.SetGpsInfo info (env.IsNavigable s.m_routingSession) routeMatchingInfo) s
  if IsTrackingReporterEnabled env s then
    let traffic := env.MatchTraffic routeMatchingInfo s.m_routingSession
    pure { s with trace := s.trace ++ [Event.TrackingAddLocation info traffic] }
  else
    pure s

/-- RoutingManager::SetDrapeEngine (lines 535-546). -/
def SetDrapeEngine (env : Env σ ε) (engine : Option ε) (is3dAllowed : Bool) (s : State σ ε) :
    Except Fault (State σ ε) := do
  let s := { s with m_drapeEngine := engine }
  if IsRoutingActive env s then
    let s ← InsertRoute env (env.GetRoute s.m_routingSession) s
    if is3dAllowed && env.IsFollowing s.m_routingSession then
      sendEngine env EngineCall.EnablePerspective s
    else
      pure s
  else
    pure s

end Members

/-! ## Collaborators as the spec describes them

The theorems below hold for every `Env`.  The concrete collaborators of this section give the
closed examples something to run on. -/

/-- Modelled from the spec: m2::PointD::EqualDxDy (geometry/point2d.hpp is not among the sources).
Section 4.3 (c) rejects points that "coincide within a small epsilon distance", and section 8
counts two points that differ by exactly the epsilon on one axis as "within epsilon": the
comparison on each axis is inclusive. -/
def EqualDxDy (p q : PointD) (eps : ℚ) : Bool :=
  decide (|p.x - q.x| ≤ eps) && decide (|p.y - q.y| ≤ eps)

/-- Modelled from the spec: routing::ToString (routing/router.cpp is not among the sources): the
name under which section 3 has the router profile "persisted across sessions". -/
def ToString : RouterType → String
  | RouterType.Vehicle => "vehicle"
  | RouterType.Pedestrian => "pedestrian"
  | RouterType.Bicycle => "bicycle"
  | RouterType.Taxi => "taxi"
  | RouterType.Count => "count"

/-- Modelled from the spec: routing::FromString (routing/router.cpp is not among the sources): it
reads back the name that ToString wrote. -/
def FromString (str : String) : RouterType :=
  if str = "pedestrian" then RouterType.Pedestrian
  else if str = "bicycle" then RouterType.Bicycle
  else if str = "taxi" then RouterType.Taxi
  else RouterType.Vehicle

/-- Modelled from the spec: m2::RectD::Add (geometry/rect2d.hpp is not among the sources): the
smallest rectangle that holds the rectangle and the point. -/
def RectAdd : RectD → PointD → RectD
  | RectD.empty, p => RectD.box p.x p.y p.x p.y
  | RectD.box minX minY maxX maxY, p =>
    RectD.box (min minX p.x) (min minY p.y) (max maxX p.x) (max maxY p.y)

/-- Modelled from the spec: m2::RectD::Scale (geometry/rect2d.hpp is not among the sources): the
rectangle resized about its centre. -/
def RectScale : RectD → ℚ → RectD
  | RectD.empty, _ => RectD.empty
  | RectD.box minX minY maxX maxY, k =>
    let cx := (minX + maxX) / 2
    let cy := (minY + maxY) / 2
    let hx := (maxX - minX) / 2 * k
    let hy := (maxY - minY) / 2 * k
    RectD.box (cx - hx) (cy - hy) (cx + hx) (cy + hy)

/-- Modelled from the spec: the navigation states of section 3. -/
inductive NavigationState
  | Idle
  | Building
  | Built
  | Following
  | Rebuilding
deriving DecidableEq, Repr

/-- Modelled from the spec: the routing session (routing/routing_session.cpp is not among the
sources) as the state machine of section 4.3, with the generation counter of section 3 that
counts the compute submissions of each purpose. -/
structure SpecSession where
  state : NavigationState
  route : Route
  position : Option PointD
  buildGeneration : Nat
  rebuildGeneration : Nat
deriving DecidableEq

/-- Modelled from the spec: the presentation layer of section 6 (drape_frontend is not among the
sources): `addSegment` hands out the next handle and installs it, `removeSegment` uninstalls,
`getCurrentPosition` may have no answer. -/
structure SpecEngine where
  myPosition : Option PointD
  nextId : DrapeID
  installed : List DrapeID
deriving DecidableEq

/-- Modelled from the spec: the route a session holds when it has none. -/
def noRoute : Route :=
  { poly := [], traffic := [], turnsDistances := [], absentCountries := [], isValid := false }

/-- Modelled from the spec: the collaborators of sections 4 and 6 put together. -/
def specEnv : Env SpecSession SpecEngine where
  IsBuilt := fun n =>
    n.state == NavigationState.Built || n.state == NavigationState.Following ||
      n.state == NavigationState.Rebuilding
  IsActive := fun n => n.state != NavigationState.Idle
  IsFollowing := fun n =>
    n.state == NavigationState.Following || n.state == NavigationState.Rebuilding
  IsNavigable := fun n =>
    n.state == NavigationState.Following || n.state == NavigationState.Rebuilding
  GetRoute := fun n => n.route
  EmitCloseRoutingEvent := fun n => n
  Reset := fun n => { n with state := NavigationState.Idle, route := noRoute }
  SetUserCurrentPosition := fun p n => { n with position := some p }
  SessionBuildRoute := fun _ _ _ n =>
    { n with state := NavigationState.Building, buildGeneration := n.buildGeneration + 1 }
  RebuildRoute := fun _ _ _ n =>
    { n with state := NavigationState.Rebuilding, rebuildGeneration := n.rebuildGeneration + 1 }
  EnableFollowMode := fun n =>
    if n.state = NavigationState.Built then (true, { n with state := NavigationState.Following })
    else (false, n)
  DisableFollowMode := fun n =>
    if n.state = NavigationState.Following then (true, { n with state := NavigationState.Built })
    else (false, n)
  OnLocationPositionChanged := fun _ n => (SessionState.Other, n)
  MatchLocationToRoute := fun location routeMatchingInfo _ => (location, routeMatchingInfo)
  MatchTraffic := fun _ _ => 0
  SetRoutingSettings := fun _ n => n
  SessionSetRouter := fun _ _ n => n
  GetMyPosition := fun e => e.myPosition
  AddRouteSegment := fun _ e =>
    (e.nextId, { e with nextId := e.nextId + 1, installed := e.installed ++ [e.nextId] })
  EngineApply := fun call e =>
    match call with
    | EngineCall.RemoveRouteSegment segmentId _ =>
      { e with installed := e.installed.filter (fun id => id != segmentId) }
    | _ => e
  EqualDxDy := EqualDxDy
  FromLatLon := fun lat lon => { x := lon, y := lat }
  RectEmpty := RectD.empty
  RectAdd := RectAdd
  RectScale := RectScale
  GetLimitRect := fun poly => poly.foldl RectAdd RectD.empty
  FromString := FromString
  ToString := ToString
  kMaxIntermediatePointsCount := 3

/-- A settings store with nothing stored. -/
def emptySettings : Settings :=
  { str := fun _ => none, enableTracking := none }

/-- A session that has not been used. -/
def idleSession : SpecSession :=
  { state := NavigationState.Idle, route := noRoute, position := none,
    buildGeneration := 0, rebuildGeneration := 0 }

/-- An engine that knows no position and has nothing installed. -/
def freshEngine : SpecEngine :=
  { myPosition := none, nextId := 0, installed := [] }

/-- A manager with an engine and an empty bookmark manager attached, before any call. -/
def initialState : State SpecSession SpecEngine :=
  { m_drapeEngine := some freshEngine
    m_bmManager := some []
    m_drapeSubroutes := []
    m_currentRouterType := RouterType.Vehicle
    m_routingSession := idleSession
    settings := emptySettings
    trace := [] }

/-- A route point with the given role and position, not the live position. -/
def markAt (type : RouteMarkType) (x y : ℚ) : RouteMarkData :=
  { m_pointType := type, m_intermediateIndex := 0, m_isVisible := true, m_isMyPosition := false,
    m_position := { x := x, y := y } }

/-! ## Derived definitions, used to state the theorems -/

section Derived

variable {σ ε : Type}

/-- The engine after the RemoveRouteSegment calls of RemoveRoute. -/
def engineAfterRemove (env : Env σ ε) (deactivateFollowing : Bool) (ids : List DrapeID) (e : ε) : ε :=
  ids.foldl (fun e id => env.EngineApply (EngineCall.RemoveRouteSegment id deactivateFollowing) e) e

/-- The RemoveRouteSegment calls of RemoveRoute, as events. -/
def removeEvents (deactivateFollowing : Bool) (ids : List DrapeID) : List Event :=
  ids.map (fun id => Event.Engine (EngineCall.RemoveRouteSegment id deactivateFollowing))

/-- The state RemoveRoute leaves. -/
def afterRemoveRoute (env : Env σ ε) (d : Bool) (s : State σ ε) : State σ ε :=
  match s.m_drapeEngine with
  | none => s
  | some e =>
    { s with m_drapeEngine := some (engineAfterRemove env d s.m_drapeSubroutes e)
             m_drapeSubroutes := []
             trace := s.trace ++ removeEvents d s.m_drapeSubroutes }

/-- Whether an event is a notification of the result callback. -/
def Event.isRoutingCallback : Event → Bool
  | Event.RoutingCallback _ _ => true
  | _ => false

/-- Whether an event is a call of the routing session's BuildRoute. -/
def Event.isSessionBuildRoute : Event → Bool
  | Event.SessionBuildRoute _ _ _ => true
  | _ => false

/-- Whether an event is an AddRoutePreviewSegment call on the engine. -/
def Event.isAddRoutePreviewSegment : Event → Bool
  | Event.Engine (EngineCall.AddRoutePreviewSegment _ _) => true
  | _ => false

/-- The outward calls of CloseRouting(false) in state `s`, in order. -/
def closeEvents (env : Env σ ε) (s : State σ ε) : List Event :=
  (if s.m_drapeEngine.isSome then [Event.Engine EngineCall.RemoveAllRoutePreviewSegments] else []) ++
    ((if env.IsBuilt s.m_routingSession then [Event.SessionEmitCloseRoutingEvent] else []) ++
      (Event.SessionReset ::
        (if s.m_drapeEngine.isSome then removeEvents true s.m_drapeSubroutes else [])))

/-- The session after CloseRouting. -/
def sessionAfterClose (env : Env σ ε) (n : σ) : σ :=
  env.Reset (if env.IsBuilt n then env.EmitCloseRoutingEvent n else n)

/-- A manager whose store holds the single point Start = (0, 0). -/
def onePointState : State SpecSession SpecEngine :=
  { initialState with m_bmManager := some [markAt RouteMarkType.Start 0 0] }

/-- A manager whose store holds Start = (0, 0), an intermediate point (5, 5) and
Finish = (0, 0): the first and the last point coincide. -/
def coincidentEndsState : State SpecSession SpecEngine :=
  { initialState with
    m_bmManager := some [markAt RouteMarkType.Start 0 0, markAt RouteMarkType.Intermediate 5 5,
      markAt RouteMarkType.Finish 0 0] }

/-- A manager whose store holds Start = (0, 0) and Finish = (0, 0.0000001). -/
def epsilonApartState : State SpecSession SpecEngine :=
  { initialState with
    m_bmManager := some [markAt RouteMarkType.Start 0 0,
      markAt RouteMarkType.Finish 0 (1 / 10000000)] }

/-- A manager whose store holds a live-position Start and a Finish at the same place, (0, 0),
with an engine that knows no position. -/
def noPositionState : State SpecSession SpecEngine :=
  { initialState with
    m_bmManager := some [{ markAt RouteMarkType.Start 0 0 with m_isMyPosition := true },
      markAt RouteMarkType.Finish 0 0] }

/-- The stored points of a given role. -/
def pointsOfRole (type : RouteMarkType) (marks : List RouteMarkData) : List RouteMarkData :=
  marks.filter (fun m => m.m_pointType == type)

/-- The invariant of section 3: at most one Start and at most one Finish. -/
def AtMostOneStartAndFinish (marks : List RouteMarkData) : Prop :=
  (pointsOfRole RouteMarkType.Start marks).length ≤ 1 ∧
    (pointsOfRole RouteMarkType.Finish marks).length ≤ 1

instance (marks : List RouteMarkData) : Decidable (AtMostOneStartAndFinish marks) :=
  inferInstanceAs (Decidable (_ ∧ _))

/-- The point as AddRoutePoint stores it: visible unless it is the live position. -/
def asStored (markData : RouteMarkData) : RouteMarkData :=
  { markData with m_isVisible := !markData.m_isMyPosition }

/-- A manager whose store holds two Start points, two Finish points and an intermediate one. -/
def crowdedState : State SpecSession SpecEngine :=
  { initialState with
    m_bmManager := some [markAt RouteMarkType.Start 1 1, markAt RouteMarkType.Finish 2 2,
      markAt RouteMarkType.Start 3 3, markAt RouteMarkType.Intermediate 4 4,
      markAt RouteMarkType.Finish 5 5] }

/-- The state after `if (m_drapeEngine != nullptr) m_drapeEngine->call(...)`. -/
def afterSendIfAttached (env : Env σ ε) (call : EngineCall) (s : State σ ε) : State σ ε :=
  match s.m_drapeEngine with
  | none => s
  | some e =>
    { s with m_drapeEngine := some (env.EngineApply call e)
             trace := s.trace ++ [Event.Engine call] }

/-- The state InsertRoute leaves. -/
def afterInsertRoute (env : Env σ ε) (route : Route) (s : State σ ε) : State σ ε :=
  match s.m_drapeEngine with
  | none => s
  | some e =>
    if route.poly.length < 2 then s
    else
      { s with
        m_drapeEngine := some (env.AddRouteSegment (makeSegment s.m_currentRouterType route) e).2
        m_drapeSubroutes :=
          s.m_drapeSubroutes ++ [(env.AddRouteSegment (makeSegment s.m_currentRouterType route) e).1]
        trace := s.trace ++ [Event.Engine (EngineCall.AddRouteSegment
          (makeSegment s.m_currentRouterType route)
          (env.AddRouteSegment (makeSegment s.m_currentRouterType route) e).1)] }

/-- The recorded segment handles of a result, none when the call did not return. -/
def recordedHandles (r : Except Fault (State σ ε)) : Option (List DrapeID) :=
  match r with
  | Except.ok s => some s.m_drapeSubroutes
  | Except.error _ => none

/-- The log of a result, none when the call did not return. -/
def tracedCalls (r : Except Fault (State σ ε)) : Option (List Event) :=
  match r with
  | Except.ok s => some s.trace
  | Except.error _ => none

/-- The engine as OnRebuildRouteReady(NoError) leaves it before InsertRoute: the preview removed
and every recorded segment removed. -/
def engineBeforeInsert (env : Env σ ε) (s : State σ ε) (e : ε) : ε :=
  engineAfterRemove env false s.m_drapeSubroutes
    (env.EngineApply EngineCall.RemoveAllRoutePreviewSegments e)

/-- The handle AddRouteSegment returns to InsertRoute inside OnRebuildRouteReady(NoError). -/
def rebuiltHandle (env : Env σ ε) (route : Route) (s : State σ ε) (e : ε) : DrapeID :=
  (env.AddRouteSegment (makeSegment s.m_currentRouterType route) (engineBeforeInsert env s e)).1

/-- A route whose polyline has three points, as a successful computation returns it. -/
def threePointRoute : Route :=
  { poly := [{ x := 0, y := 0 }, { x := 1, y := 0 }, { x := 1, y := 1 }]
    traffic := [], turnsDistances := [], absentCountries := [], isValid := true }

/-- A manager following a route, with the segment handles 3 and 4 recorded and installed. -/
def followingState : State SpecSession SpecEngine :=
  { initialState with
    m_drapeEngine := some { myPosition := none, nextId := 5, installed := [3, 4] }
    m_bmManager := some [markAt RouteMarkType.Start 0 0, markAt RouteMarkType.Finish 1 1]
    m_drapeSubroutes := [3, 4]
    m_routingSession := { idleSession with state := NavigationState.Following,
                                           route := threePointRoute } }

/-- The router type that GetLastUsedRouter gives back for a stored type: the switch of lines
149-154. -/
def restoredRouter : RouterType → RouterType
  | RouterType.Pedestrian => RouterType.Pedestrian
  | RouterType.Bicycle => RouterType.Bicycle
  | _ => RouterType.Vehicle

/-- A manager whose current router is Vehicle (set by SetRouterImpl at start-up) while the
settings store holds "pedestrian" from an earlier session. -/
def pedestrianStoredState : State SpecSession SpecEngine :=
  { initialState with
    settings := { str := fun key => if key = kRouterTypeKey then some "pedestrian" else none
                  enableTracking := none } }

/-- A manager whose store holds Start = (0, 0) and Finish = (1, 1). -/
def twoPointState : State SpecSession SpecEngine :=
  { initialState with
    m_bmManager := some [markAt RouteMarkType.Start 0 0, markAt RouteMarkType.Finish 1 1] }

/-- Whether an event is a call on the engine. -/
def Event.isEngine : Event → Bool
  | Event.Engine _ => true
  | _ => false

/-- The log of `s2` is the log of `s` followed by calls on the engine only. -/
def EngineCallsOnly (s s2 : State σ ε) : Prop :=
  ∃ calls, s2.trace = s.trace ++ calls ∧ ∀ ev ∈ calls, Event.isEngine ev = true

/-- Two submissions in a row from a store holding Start = (0, 0) and Finish = (1, 1): the second
BuildRoute supersedes the first. -/
def supersededRun : Except Fault (State SpecSession SpecEngine) :=
  BuildRoute specEnv 10 twoPointState >>= BuildRoute specEnv 10

/-- The completions of both submissions of `supersededRun` reach the manager, each with a
route of three points. -/
def bothCompletions : Except Fault (State SpecSession SpecEngine) :=
  supersededRun >>= OnBuildRouteReady specEnv threePointRoute ResultCode.NoError >>=
    OnBuildRouteReady specEnv threePointRoute ResultCode.NoError

/-- The number of log entries a test accepts, none when the call did not return. -/
def countCalls (test : Event → Bool) (r : Except Fault (State σ ε)) : Option Nat :=
  match r with
  | Except.ok s => some (s.trace.filter test).length
  | Except.error _ => none

/-- A position fix at latitude 1, longitude 2. -/
def someFix : GpsInfo :=
  { m_latitude := 1, m_longitude := 2 }

/-- A manager before SetDrapeEngine has attached an engine. -/
def detachedState : State SpecSession SpecEngine :=
  { initialState with m_drapeEngine := none }

/-- A manager with no engine attached whose store holds a live-position Start and a Finish. -/
def detachedLiveState : State SpecSession SpecEngine :=
  { initialState with
    m_drapeEngine := none
    m_bmManager := some [{ markAt RouteMarkType.Start 0 0 with m_isMyPosition := true },
      markAt RouteMarkType.Finish 1 1] }

/-- The fault of a result, none when the call returned. -/
def faultOf (r : Except Fault (State σ ε)) : Option Fault :=
  match r with
  | Except.ok _ => none
  | Except.error f => some f

/-- The state CloseRouting(false) leaves. -/
def afterCloseRouting (env : Env σ ε) (s : State σ ε) : State σ ε :=
  let s := afterSendIfAttached env EngineCall.RemoveAllRoutePreviewSegments s
  let s :=
    if env.IsBuilt s.m_routingSession then
      { s with m_routingSession := env.EmitCloseRoutingEvent s.m_routingSession
               trace := s.trace ++ [Event.SessionEmitCloseRoutingEvent] }
    else s
  let s := { s with m_routingSession := env.Reset s.m_routingSession
                    trace := s.trace ++ [Event.SessionReset] }
  afterRemoveRoute env true s

/-- The AddRoutePreviewSegment calls of the preview loop: one for every two neighbouring
points. -/
def previewCalls : List RouteMarkData → List EngineCall
  | [] => []
  | p :: rest =>
    match rest with
    | [] => []
    | q :: _ => EngineCall.AddRoutePreviewSegment p.m_position q.m_position :: previewCalls rest

/-- The rectangle the preview loop ends with. -/
def previewRect (env : Env σ ε) : List RouteMarkData → RectD → RectD
  | [], rect => rect
  | p :: rest, rect =>
    match rest with
    | [] => rect
    | q :: _ => previewRect env rest (env.RectAdd (env.RectAdd rect p.m_position) q.m_position)

/-- The engine after a list of calls. -/
def engineAfterCalls (env : Env σ ε) (calls : List EngineCall) (e : ε) : ε :=
  calls.foldl (fun e call => env.EngineApply call e) e

/-- All calls of the block "Show preview" (lines 452-466) on an attached engine. -/
def showPreviewCalls (env : Env σ ε) (routePoints : List RouteMarkData) : List EngineCall :=
  previewCalls routePoints ++
    [EngineCall.SetModelViewRect
      (env.RectScale (previewRect env routePoints env.RectEmpty) kRouteScaleMultiplier)
      true (-1) true]

/-- The state the block "Show preview" leaves. -/
def afterShowPreview (env : Env σ ε) (routePoints : List RouteMarkData) (s : State σ ε) :
    State σ ε :=
  match s.m_drapeEngine with
  | none => s
  | some e =>
    { s with m_drapeEngine := some (engineAfterCalls env (showPreviewCalls env routePoints) e)
             trace := s.trace ++ (showPreviewCalls env routePoints).map Event.Engine }

/-- The state before the block "Show preview": the tag sent, an active route closed. -/
def afterImplicitClose (env : Env σ ε) (front back : RouteMarkData) (s : State σ ε) : State σ ε :=
  let isP2P := !front.m_isMyPosition && !back.m_isMyPosition
  let s := { s with trace := s.trace ++ [Event.SendPushWooshTag s.m_currentRouterType isP2P] }
  if IsRoutingActive env s then afterCloseRouting env s else s

/-- The state a validated BuildRoute leaves. -/
def afterStartBuild (env : Env σ ε) (timeoutSec : Nat) (routePoints : List RouteMarkData)
    (front back : RouteMarkData) (s : State σ ε) : State σ ε :=
  let s := afterShowPreview env routePoints (afterImplicitClose env front back s)
  { s with
    m_routingSession :=
      env.SessionBuildRoute front.m_position back.m_position timeoutSec
        (env.SetUserCurrentPosition front.m_position s.m_routingSession)
    trace := s.trace ++ [Event.SessionSetUserCurrentPosition front.m_position,
      Event.SessionBuildRoute front.m_position back.m_position timeoutSec] }

/-- The points are pairwise not equal up to `eps`, as EqualDxDy sees it. -/
def PairwiseDistinct (env : Env σ ε) (eps : ℚ) (pts : List RouteMarkData) : Prop :=
  pts.Pairwise (fun p q => env.EqualDxDy p.m_position q.m_position eps = false)

/-- The log of `s2` is the log of `s` followed by calls none of which is a BuildRoute of the
routing session or a notification of the result callback. -/
def QuietCalls (s s2 : State σ ε) : Prop :=
  ∃ calls, s2.trace = s.trace ++ calls ∧
    ∀ ev ∈ calls, Event.isSessionBuildRoute ev = false ∧ Event.isRoutingCallback ev = false

/-- The handle AddRouteSegment returns to InsertRoute inside OnBuildRouteReady(NoError), for an
attached engine in state `e` at the start of the handler. -/
def builtHandle (env : Env σ ε) (route : Route) (type : RouterType) (e : ε) : DrapeID :=
  (env.AddRouteSegment (makeSegment type route)
    (env.EngineApply EngineCall.RemoveAllRoutePreviewSegments e)).1

/-- A manager whose store holds Start = (0, 0), the intermediate points (5, 5) and (7, 2), and
Finish = (1, 1). -/
def fourPointState : State SpecSession SpecEngine :=
  { initialState with
    m_bmManager := some [markAt RouteMarkType.Start 0 0, markAt RouteMarkType.Intermediate 5 5,
      markAt RouteMarkType.Intermediate 7 2, markAt RouteMarkType.Finish 1 1] }

/-- The engine as it is once one segment, with handle 0, has been added to `freshEngine`. -/
def engineWithOneSegment : SpecEngine :=
  { myPosition := none, nextId := 1, installed := [0] }

/-- A route is built from Start = (0, 0) to Finish = (1, 1) by a manager that has built nothing,
and its completion arrives with a polyline of three points. -/
def builtRun : Except Fault (State SpecSession SpecEngine) :=
  BuildRoute specEnv 10 twoPointState >>=
    OnBuildRouteReady specEnv threePointRoute ResultCode.NoError

/-- After `builtRun` the engine is detached (SetDrapeEngine(nullptr)), routing is closed while
there is no engine, and the engine is attached again in the state it was detached in. -/
def reattachedRun : Except Fault (State SpecSession SpecEngine) :=
  builtRun >>=
    SetDrapeEngine specEnv none false >>=
    CloseRouting specEnv false >>=
    SetDrapeEngine specEnv (some engineWithOneSegment) false

/-- After `reattachedRun`, a route is built again and its completion arrives. -/
def rebuiltAfterReattach : Except Fault (State SpecSession SpecEngine) :=
  reattachedRun >>= BuildRoute specEnv 10 >>=
    OnBuildRouteReady specEnv threePointRoute ResultCode.NoError

/-- The attached engine of a result, none when there is none or the call did not return. -/
def attachedEngine (r : Except Fault (State σ ε)) : Option ε :=
  match r with
  | Except.ok s => s.m_drapeEngine
  | Except.error _ => none

/-- The calls of OnBuildRouteReady(route, NoError) on an attached engine in state `e`, for a
polyline of at least two points and the router type `type`: the preview removed, the segment
added, location following stopped, the view moved to a valid route, the callback notified. -/
def builtEvents (env : Env σ ε) (route : Route) (type : RouterType) (e : ε) : List Event :=
  [Event.Engine EngineCall.RemoveAllRoutePreviewSegments,
    Event.Engine (EngineCall.AddRouteSegment (makeSegment type route)
      (builtHandle env route type e)),
    Event.Engine EngineCall.StopLocationFollow] ++
    ((if route.isValid then
        [Event.Engine (EngineCall.SetModelViewRect
          (env.RectScale (env.GetLimitRect route.poly) kRouteScaleMultiplier) true (-1) true)]
      else []) ++
      [Event.RoutingCallback ResultCode.NoError []])

/-- Modelled from the spec: the purpose tag of a compute request (section 3). -/
inductive Purpose
  | InitialBuild
  | Rebuild
deriving DecidableEq, Repr

/-- Modelled from the spec: the generation counter of a purpose, "a monotonically increasing
generation counter" (section 3); every submission of that purpose raises it by one and takes
the new value as its token. -/
def SpecSession.generation (n : SpecSession) : Purpose → Nat
  | Purpose.InitialBuild => n.buildGeneration
  | Purpose.Rebuild => n.rebuildGeneration

/-- The manager after one BuildRoute from the store Start = (0, 0), Finish = (1, 1): one build
has been submitted. -/
def onceSubmittedState : State SpecSession SpecEngine :=
  afterStartBuild specEnv 10 [markAt RouteMarkType.Start 0 0, markAt RouteMarkType.Finish 1 1]
    (markAt RouteMarkType.Start 0 0) (markAt RouteMarkType.Finish 1 1) twoPointState

end Derived

end RoutingManager

/-!
# ugc::Api (ugc/api.cpp): a shallow embedding

The Api hands its work to a worker thread as closures and answers through closures run on the
GUI thread.  A closure is embedded as data that names the member function its body calls, the
worker thread as the list of closures pushed and not yet run.  The type `U` stands for
ugc::UGCUpdate, which is declared outside api.cpp.
-/

namespace ugc

/-- The fields of FeatureID that identify a feature. -/
structure FeatureID where
  m_mwmId : Nat
  m_index : Nat
deriving DecidableEq

/-- The language codes of StringUtf8Multilang that api.cpp names. -/
inductive LangCode
  | kDefaultCode
  | kEnglishCode
deriving DecidableEq, Repr

/-- The enumeration ugc::Sentiment; api.cpp names Positive only. -/
inductive Sentiment
  | Positive
  | Negative
deriving DecidableEq, Repr

/-- A rating record: a key and a value. -/
structure RatingRecord where
  m_key : String
  m_value : ℚ
deriving DecidableEq

/-- The struct ugc::Rating. -/
structure Rating where
  m_ratings : List RatingRecord
  m_aggValue : ℚ
deriving DecidableEq

/-- The struct ugc::Review; the time is kept in hours. -/
structure Review where
  m_id : Nat
  m_text : String
  m_lang : LangCode
  m_authorHi : Nat
  m_authorLo : Nat
  m_authorName : String
  m_rating : ℚ
  m_sentiment : Sentiment
  m_timeHours : Nat
deriving DecidableEq

/-- The struct ugc::Attribute. -/
structure Attribute where
  m_key : String
  m_value : String
deriving DecidableEq

/-- The struct ugc::UGC. -/
structure UGC where
  m_rating : Rating
  m_reviews : List Review
  m_attributes : List Attribute
deriving DecidableEq

/-- A callback handed to the Api, known by a number. -/
abbrev Callback := Nat

/-- A closure pushed onto the worker thread, named after the member function its body calls
(lines 24, 29 and 34). -/
inductive Task (U : Type)
  | callGetUGCImpl (id : FeatureID) (callback : Callback)
  | callGetUGCUpdateImpl (id : FeatureID) (callback : Callback)
  | callSetUGCUpdate (id : FeatureID) (ugc : U)

/-- A closure handed to RunOnGuiThread: the callback and the value it is called with. -/
inductive GuiTask (U : Type)
  | ugc (callback : Callback) (value : UGC)
  | ugcUpdate (callback : Callback) (value : U)

/-- The members of ugc::Api that the functions of api.cpp touch: the closures waiting on
m_thread, oldest first, the SetUGCUpdate calls m_storage has received, and the closures handed
to the GUI thread. -/
structure Api (U : Type) where
  m_thread : List (Task U)
  m_storage : List (FeatureID × U)
  gui : List (GuiTask U)

section Members

variable {U : Type}

/-- FromDays (lines 12-15): `days * 24` in 32-bit unsigned arithmetic, as hours. -/
def FromDays (days : Nat) : Nat :=
  (days * 24) % 2 ^ 32

/-- Modelled from the spec: the Push of the worker thread (base/worker_thread.hpp is not among
the sources): section 9 describes "an explicit task submission"; the closure joins the end of
the queue. -/
def Push (task : Task U) (a : Api U) : Api U :=
  { a with m_thread := a.m_thread ++ [task] }

/-- Api::GetUGC (lines 22-25). -/
def Api.GetUGC (id : FeatureID) (callback : Callback) (a : Api U) : Api U :=
  Push (Task.callGetUGCImpl id callback) a

/-- Api::GetUGCUpdate (lines 27-30). -/
def Api.GetUGCUpdate (id : FeatureID) (callback : Callback) (a : Api U) : Api U :=
  Push (Task.callGetUGCUpdateImpl id callback) a

/-- Api::SetUGCUpdate (lines 32-35): the closure it pushes calls SetUGCUpdate. -/
def Api.SetUGCUpdate (id : FeatureID) (ugc : U) (a : Api U) : Api U :=
  Push (Task.callSetUGCUpdate id ugc) a

/-- Api::MakeTestUGC1 (lines 38-59). -/
def Api.MakeTestUGC1 : UGC :=
  { m_rating :=
      { m_ratings := [{ m_key := "food", m_value := 4 }, { m_key := "service", m_value := 5 },
          { m_key := "music", m_value := 5 }]
        m_aggValue := 9 / 2 }
    m_reviews :=
      [{ m_id := 20, m_text := "Damn good coffee", m_lang := LangCode.kEnglishCode
         m_authorHi := 987654321, m_authorLo := 123456789, m_authorName := "Cole"
         m_rating := 5, m_sentiment := Sentiment.Positive, m_timeHours := FromDays 10 },
       { m_id := 67812, m_text := "Clean place, reasonably priced"
         m_lang := LangCode.kDefaultCode
         m_authorHi := 0, m_authorLo := 315, m_authorName := "Cooper"
         m_rating := 5, m_sentiment := Sentiment.Positive, m_timeHours := FromDays 1 }]
    m_attributes := [{ m_key := "best-drink", m_value := "Coffee" }] }

/-- Api::MakeTestUGC2 (lines 62-81). -/
def Api.MakeTestUGC2 : UGC :=
  { m_rating :=
      { m_ratings := [{ m_key := "food", m_value := 5 }, { m_key := "service", m_value := 5 },
          { m_key := "music", m_value := 5 }]
        m_aggValue := 5 }
    m_reviews :=
      [{ m_id := 119, m_text := "This pie's so good it is a crime"
         m_lang := LangCode.kDefaultCode
         m_authorHi := 0, m_authorLo := 315, m_authorName := "Cooper"
         m_rating := 5, m_sentiment := Sentiment.Positive, m_timeHours := FromDays 1 }]
    m_attributes := [{ m_key := "best-drink", m_value := "Coffee" },
      { m_key := "best-meal", m_value := "Cherry Pie" }] }

/-- Api::GetUGCImpl (lines 83-95). -/
def Api.GetUGCImpl (id : FeatureID) (callback : Callback) (a : Api U) : Api U :=
  let empty : UGC := { m_rating := { m_ratings := [], m_aggValue := 0 }, m_reviews := [],
                       m_attributes := [] }
  let r := id.m_index % 3
  let ugc := if r = 1 then Api.MakeTestUGC1 else if r = 2 then Api.MakeTestUGC2 else empty
  { a with gui := a.gui ++ [GuiTask.ugc callback ugc] }

/-- Api::GetUGCUpdateImpl (lines 97-105); `emptyUpdate` is the update it constructs from empty
parts. -/
def Api.GetUGCUpdateImpl (emptyUpdate : U) (_id : FeatureID) (callback : Callback) (a : Api U) :
    Api U :=
  { a with gui := a.gui ++ [GuiTask.ugcUpdate callback emptyUpdate] }

/-- Api::SetUGCUpdateImpl (lines 107-110): m_storage.SetUGCUpdate(id, ugc). -/
def Api.SetUGCUpdateImpl (id : FeatureID) (ugc : U) (a : Api U) : Api U :=
  { a with m_storage := a.m_storage ++ [(id, ugc)] }

/-- The body of a closure on the worker thread, run on the Api. -/
def runTask (emptyUpdate : U) (task : Task U) (a : Api U) : Api U :=
  match task with
  | Task.callGetUGCImpl id callback => Api.GetUGCImpl id callback a
  | Task.callGetUGCUpdateImpl id callback => Api.GetUGCUpdateImpl emptyUpdate id callback a
  | Task.callSetUGCUpdate id ugc => Api.SetUGCUpdate id ugc a

/-- Modelled from the spec: one turn of the worker thread (base/worker_thread.hpp is not among
the sources): the oldest closure leaves the queue and runs; nothing happens on an empty
queue. -/
def runNext (emptyUpdate : U) (a : Api U) : Api U :=
  match a.m_thread with
  | [] => a
  | task :: rest => runTask emptyUpdate task { a with m_thread := rest }

/-- An Api on which nothing has been called. -/
def emptyApi : Api U :=
  { m_thread := [], m_storage := [], gui := [] }

end Members

end ugc

namespace RoutingManager

/-! ## Lemmas on the member functions -/

section Lemmas

variable {σ ε : Type}

theorem sendEngine_attached (env : Env σ ε) (call : EngineCall) (s : State σ ε) (e : ε)
    (h : s.m_drapeEngine = some e) :
    sendEngine env call s =
      Except.ok { s with m_drapeEngine := some (env.EngineApply call e)
                         trace := s.trace ++ [Event.Engine call] } := by
  simp [sendEngine, h, pure, Except.pure]

theorem removeLoop_attached (env : Env σ ε) (d : Bool) (ids : List DrapeID) :
    ∀ (s : State σ ε) (e : ε), s.m_drapeEngine = some e →
      ids.foldlM (fun st segmentId => sendEngine env (EngineCall.RemoveRouteSegment segmentId d) st) s =
        Except.ok { s with m_drapeEngine := some (engineAfterRemove env d ids e)
                           trace := s.trace ++ removeEvents d ids } := by
  induction ids with
  | nil =>
    intro s e h
    simp [engineAfterRemove, removeEvents, pure, Except.pure, ← h]
  | cons id rest ih =>
    intro s e h
    rw [List.foldlM_cons, sendEngine_attached env _ s e h]
    simp only [bind, Except.bind]
    rw [ih _ (env.EngineApply (EngineCall.RemoveRouteSegment id d) e) rfl]
    simp [engineAfterRemove, removeEvents]

theorem RemoveRoute_eq (env : Env σ ε) (d : Bool) (s : State σ ε) :
    RemoveRoute env d s = Except.ok (afterRemoveRoute env d s) := by
  cases h : s.m_drapeEngine with
  | none => simp [RemoveRoute, afterRemoveRoute, h, pure, Except.pure]
  | some e =>
    simp [RemoveRoute, afterRemoveRoute, h, removeLoop_attached env d s.m_drapeSubroutes s e h,
      bind, Except.bind, pure, Except.pure]

theorem sendEngineIfAttached_eq (env : Env σ ε) (call : EngineCall) (s : State σ ε) :
    sendEngineIfAttached env call s = Except.ok (afterSendIfAttached env call s) := by
  cases h : s.m_drapeEngine with
  | none => simp [sendEngineIfAttached, afterSendIfAttached, h, pure, Except.pure]
  | some e => simp [sendEngineIfAttached, afterSendIfAttached, sendEngine, h, pure, Except.pure]

theorem closeEvents_plain (env : Env σ ε) (s : State σ ε) :
    ∀ ev ∈ closeEvents env s,
      ev.isRoutingCallback = false ∧ ev.isSessionBuildRoute = false ∧
        ev.isAddRoutePreviewSegment = false := by
  intro ev hev
  simp only [closeEvents, removeEvents, List.mem_append, List.mem_cons, List.mem_map] at hev
  rcases hev with h | h | h | h
  · split at h
    · simp only [List.mem_singleton] at h
      subst h
      simp [Event.isRoutingCallback, Event.isSessionBuildRoute, Event.isAddRoutePreviewSegment]
    · simp at h
  · split at h
    · simp only [List.mem_singleton] at h
      subst h
      simp [Event.isRoutingCallback, Event.isSessionBuildRoute, Event.isAddRoutePreviewSegment]
    · simp at h
  · subst h
    simp [Event.isRoutingCallback, Event.isSessionBuildRoute, Event.isAddRoutePreviewSegment]
  · split at h
    · simp only [List.mem_map] at h
      obtain ⟨id, _, rfl⟩ := h
      simp [Event.isRoutingCallback, Event.isSessionBuildRoute, Event.isAddRoutePreviewSegment]
    · simp at h

theorem CloseRouting_false (env : Env σ ε) (s : State σ ε) :
    ∃ s2, CloseRouting env false s = Except.ok s2 ∧
      s2.m_bmManager = s.m_bmManager ∧
      s2.trace = s.trace ++ closeEvents env s ∧
      s2.m_drapeSubroutes = (if s.m_drapeEngine.isSome then [] else s.m_drapeSubroutes) ∧
      s2.m_drapeEngine.isSome = s.m_drapeEngine.isSome ∧
      s2.m_currentRouterType = s.m_currentRouterType ∧
      s2.settings = s.settings ∧
      s2.m_routingSession = sessionAfterClose env s.m_routingSession := by
  cases he : s.m_drapeEngine with
  | none =>
    by_cases hb : env.IsBuilt s.m_routingSession = true <;>
    simp [CloseRouting, sendEngineIfAttached_eq, afterSendIfAttached, RemoveRoute_eq,
      afterRemoveRoute, he, hb, closeEvents, sessionAfterClose, bind, Except.bind, pure,
      Except.pure]
  | some e =>
    by_cases hb : env.IsBuilt s.m_routingSession = true <;>
    simp [CloseRouting, sendEngineIfAttached_eq, afterSendIfAttached, RemoveRoute_eq,
      afterRemoveRoute, he, hb, closeEvents, sessionAfterClose, bind, Except.bind, pure,
      Except.pure]

theorem GetRoutePoints_length (marks : List RouteMarkData) :
    (RoutePointsLayout.GetRoutePoints marks).length = marks.length := by
  induction marks with
  | nil => rfl
  | cons m rest ih =>
    simp only [RoutePointsLayout.GetRoutePoints, List.length_append] at ih ⊢
    cases hm : m.m_pointType <;> simp [List.filter_cons, hm] <;> omega

theorem updateMyPosition_length (env : Env σ ε) (engine : Option ε) :
    ∀ (pts res : List RouteMarkData),
      updateMyPosition env engine pts = Except.ok (some res) → res.length = pts.length := by
  intro pts
  induction pts with
  | nil =>
    intro res h
    simp [updateMyPosition, pure, Except.pure] at h
    simp [← h]
  | cons p rest ih =>
    intro res h
    unfold updateMyPosition at h
    by_cases hp : p.m_isMyPosition = true
    · simp only [hp, Bool.not_true, Bool.false_eq_true, if_false] at h
      cases engine with
      | none => simp [throw, throwThe, MonadExceptOf.throw] at h
      | some e =>
        simp only at h
        cases hpos : env.GetMyPosition e with
        | none => simp [hpos, pure, Except.pure] at h
        | some myPos =>
          simp only [hpos] at h
          cases hr : updateMyPosition env (some e) rest with
          | error f => simp [hr, bind, Except.bind] at h
          | ok r =>
            cases r with
            | none => simp [hr, bind, Except.bind, pure, Except.pure] at h
            | some ps =>
              simp [hr, bind, Except.bind, pure, Except.pure] at h
              simp [← h, ih ps hr]
    · simp only [hp, Bool.not_false, if_true] at h
      cases hr : updateMyPosition env engine rest with
      | error f => simp [hr, bind, Except.bind] at h
      | ok r =>
        cases r with
        | none => simp [hr, bind, Except.bind, pure, Except.pure] at h
        | some ps =>
          simp [hr, bind, Except.bind, pure, Except.pure] at h
          simp [← h, ih ps hr]

theorem hasEqualPoints_of_pair (env : Env σ ε) (eps : ℚ) :
    ∀ (pts : List RouteMarkData) (i j : Nat) (p q : RouteMarkData),
      pts[i]? = some p → pts[j]? = some q → i < j →
      env.EqualDxDy p.m_position q.m_position eps = true →
      hasEqualPoints env eps pts = true := by
  intro pts
  induction pts with
  | nil => intro i j p q hp; simp at hp
  | cons a rest ih =>
    intro i j p q hp hq hij heq
    cases j with
    | zero => omega
    | succ j =>
      simp only [List.getElem?_cons_succ] at hq
      cases i with
      | zero =>
        simp only [List.getElem?_cons_zero, Option.some.injEq] at hp
        subst hp
        simp only [hasEqualPoints, Bool.or_eq_true, List.any_eq_true]
        exact Or.inl ⟨q, List.getElem?_mem hq, heq⟩
      | succ i =>
        simp only [List.getElem?_cons_succ] at hp
        simp only [hasEqualPoints, Bool.or_eq_true]
        exact Or.inr (ih i j p q hp hq (by omega) heq)

theorem BuildRoute_equal_points (env : Env σ ε) (timeoutSec : Nat) (s : State σ ε)
    (marks pts : List RouteMarkData) (hstore : s.m_bmManager = some marks)
    (hmany : ¬ marks.length < 2)
    (hres : updateMyPosition env s.m_drapeEngine (RoutePointsLayout.GetRoutePoints marks) =
      Except.ok (some pts))
    (heq : hasEqualPoints env kEps pts = true) :
    BuildRoute env timeoutSec s =
      CloseRouting env false (CallRouteBuilded ResultCode.Cancelled [] s) := by
  have hlen : ¬ (RoutePointsLayout.GetRoutePoints marks).length < 2 := by
    rw [GetRoutePoints_length]; exact hmany
  simp [BuildRoute, GetRoutePoints, hstore, hlen, hres, heq, bind, Except.bind, pure, Except.pure]

theorem cancelled_and_closed (env : Env σ ε) (timeoutSec : Nat) (s : State σ ε)
    (h : BuildRoute env timeoutSec s =
      CloseRouting env false (CallRouteBuilded ResultCode.Cancelled [] s)) :
    ∃ s2, BuildRoute env timeoutSec s = Except.ok s2 ∧
      s2.m_bmManager = s.m_bmManager ∧
      s2.trace = s.trace ++ Event.RoutingCallback ResultCode.Cancelled [] :: closeEvents env s := by
  obtain ⟨s2, hclose, hmarks, htrace, _⟩ :=
    CloseRouting_false env (CallRouteBuilded ResultCode.Cancelled [] s)
  refine ⟨s2, h.trans hclose, ?_, ?_⟩
  · rw [hmarks]; rfl
  · rw [htrace]; simp [CallRouteBuilded, closeEvents]

theorem mem_GetRoutePoints (marks : List RouteMarkData) (p : RouteMarkData) :
    p ∈ RoutePointsLayout.GetRoutePoints marks ↔ p ∈ marks := by
  simp only [RoutePointsLayout.GetRoutePoints, List.mem_append, List.mem_filter, beq_iff_eq]
  constructor
  · rintro (h | h | h) <;> exact h.1
  · intro h
    cases hp : p.m_pointType
    · exact Or.inl ⟨h, rfl⟩
    · exact Or.inr (Or.inl ⟨h, rfl⟩)
    · exact Or.inr (Or.inr ⟨h, rfl⟩)

theorem updateMyPosition_unavailable (env : Env σ ε) (e : ε) (hpos : env.GetMyPosition e = none) :
    ∀ (pts : List RouteMarkData), (∃ p ∈ pts, p.m_isMyPosition = true) →
      updateMyPosition env (some e) pts = Except.ok none := by
  intro pts
  induction pts with
  | nil => rintro ⟨p, hp, _⟩; simp at hp
  | cons a rest ih =>
    rintro ⟨p, hp, hmy⟩
    unfold updateMyPosition
    by_cases ha : a.m_isMyPosition = true
    · simp [ha, hpos, pure, Except.pure]
    · have hrest : ∃ p ∈ rest, p.m_isMyPosition = true := by
        rcases List.mem_cons.mp hp with h | h
        · subst h; exact absurd hmy ha
        · exact ⟨p, h, hmy⟩
      simp [ha, ih hrest, bind, Except.bind, pure, Except.pure]

theorem AddRoutePoint_end_point (env : Env σ ε) (d : RouteMarkData) (s : State σ ε)
    (marks : List RouteMarkData) (hstore : s.m_bmManager = some marks)
    (hrole : d.m_pointType ≠ RouteMarkType.Intermediate) :
    AddRoutePoint env d s =
      Except.ok { s with
        m_bmManager := some (marks.filter (fun m => !(m.m_pointType == d.m_pointType)) ++ [asStored d]) } := by
  have hor : d.m_pointType = RouteMarkType.Start ∨ d.m_pointType = RouteMarkType.Finish := by
    cases h : d.m_pointType <;> simp_all
  have hfilter : RoutePointsLayout.RemoveRoutePoint d.m_pointType 0 marks =
      marks.filter (fun m => !(m.m_pointType == d.m_pointType)) := by
    unfold RoutePointsLayout.RemoveRoutePoint
    congr 1
    funext m
    simp [RoutePointsLayout.Matches, hrole]
  simp [AddRoutePoint, hstore, hor, hfilter, RoutePointsLayout.AddRoutePoint, hrole, asStored,
    pure, Except.pure]

theorem AddRoutePoint_intermediate (env : Env σ ε) (d : RouteMarkData) (s : State σ ε)
    (marks : List RouteMarkData) (hstore : s.m_bmManager = some marks)
    (hrole : d.m_pointType = RouteMarkType.Intermediate) :
    AddRoutePoint env d s = Except.ok s ∨
      AddRoutePoint env d s = Except.ok { s with m_bmManager := some (marks ++ [asStored d]) } := by
  by_cases hcap : env.kMaxIntermediatePointsCount ≤
      (marks.filter (fun m => m.m_pointType == RouteMarkType.Intermediate)).length
  · left
    cases s
    simp only at hstore
    subst hstore
    simp [AddRoutePoint, hrole, RoutePointsLayout.AddRoutePoint, hcap, pure, Except.pure]
  · right
    simp [AddRoutePoint, hstore, hrole, RoutePointsLayout.AddRoutePoint, hcap, asStored, pure,
      Except.pure]

theorem pointsOfRole_replaced (type : RouteMarkType) (marks : List RouteMarkData)
    (d : RouteMarkData) (hd : d.m_pointType = type) :
    pointsOfRole type (marks.filter (fun m => !(m.m_pointType == type)) ++ [d]) = [d] := by
  simp [pointsOfRole, List.filter_append, List.filter_filter, hd]

theorem pointsOfRole_other (type other : RouteMarkType) (marks : List RouteMarkData)
    (d : RouteMarkData) (hd : d.m_pointType = type) (hne : other ≠ type) :
    pointsOfRole other (marks.filter (fun m => !(m.m_pointType == type)) ++ [d]) =
      pointsOfRole other marks := by
  have hd2 : ¬ d.m_pointType = other := by rw [hd]; exact fun h => hne h.symm
  simp only [pointsOfRole, List.filter_append, List.filter_filter]
  simp only [List.filter_cons, beq_iff_eq, hd2, if_false, List.filter_nil, List.append_nil]
  congr 1
  funext m
  by_cases hm : m.m_pointType = other
  · simp [hm, hne]
  · simp [hm]

theorem InsertRoute_eq (env : Env σ ε) (route : Route) (s : State σ ε) :
    InsertRoute env route s = Except.ok (afterInsertRoute env route s) := by
  cases h : s.m_drapeEngine with
  | none => simp [InsertRoute, afterInsertRoute, h, pure, Except.pure]
  | some e =>
    by_cases hlen : route.poly.length < 2 <;>
    simp [InsertRoute, afterInsertRoute, h, hlen, pure, Except.pure]

theorem OnRebuildRouteReady_ok_eq (env : Env σ ε) (route : Route) (s : State σ ε) :
    OnRebuildRouteReady env route ResultCode.NoError s =
      Except.ok (CallRouteBuilded ResultCode.NoError []
        (afterInsertRoute env route (afterRemoveRoute env false
          (afterSendIfAttached env EngineCall.RemoveAllRoutePreviewSegments s)))) := by
  simp [OnRebuildRouteReady, sendEngineIfAttached_eq, RemoveRoute_eq, InsertRoute_eq, bind,
    Except.bind, pure, Except.pure]

theorem EngineCallsOnly.refl (s : State σ ε) : EngineCallsOnly s s :=
  ⟨[], by simp, by simp⟩

theorem EngineCallsOnly.trans {s s2 s3 : State σ ε} (h1 : EngineCallsOnly s s2)
    (h2 : EngineCallsOnly s2 s3) : EngineCallsOnly s s3 := by
  obtain ⟨c1, ht1, hc1⟩ := h1
  obtain ⟨c2, ht2, hc2⟩ := h2
  refine ⟨c1 ++ c2, by rw [ht2, ht1, List.append_assoc], ?_⟩
  intro ev hev
  rcases List.mem_append.mp hev with h | h
  · exact hc1 ev h
  · exact hc2 ev h

theorem afterSendIfAttached_engineOnly (env : Env σ ε) (call : EngineCall) (s : State σ ε) :
    EngineCallsOnly s (afterSendIfAttached env call s) := by
  cases h : s.m_drapeEngine with
  | none => exact ⟨[], by simp [afterSendIfAttached, h], by simp⟩
  | some e => exact ⟨[Event.Engine call], by simp [afterSendIfAttached, h], by simp [Event.isEngine]⟩

theorem afterInsertRoute_engineOnly (env : Env σ ε) (route : Route) (s : State σ ε) :
    EngineCallsOnly s (afterInsertRoute env route s) := by
  cases h : s.m_drapeEngine with
  | none => exact ⟨[], by simp [afterInsertRoute, h], by simp⟩
  | some e =>
    by_cases hlen : route.poly.length < 2
    · exact ⟨[], by simp [afterInsertRoute, h, hlen], by simp⟩
    · exact ⟨[Event.Engine (EngineCall.AddRouteSegment (makeSegment s.m_currentRouterType route)
          (env.AddRouteSegment (makeSegment s.m_currentRouterType route) e).1)],
        by simp only [afterInsertRoute, h, hlen, if_false], by simp [Event.isEngine]⟩

theorem afterRemoveRoute_engineOnly (env : Env σ ε) (d : Bool) (s : State σ ε) :
    EngineCallsOnly s (afterRemoveRoute env d s) := by
  cases h : s.m_drapeEngine with
  | none => exact ⟨[], by simp [afterRemoveRoute, h], by simp⟩
  | some e =>
    refine ⟨removeEvents d s.m_drapeSubroutes, by simp [afterRemoveRoute, h], ?_⟩
    intro ev hev
    simp only [removeEvents, List.mem_map] at hev
    obtain ⟨id, _, rfl⟩ := hev
    rfl

theorem OnBuildRouteReady_ok_eq (env : Env σ ε) (route : Route) (s : State σ ε) :
    OnBuildRouteReady env route ResultCode.NoError s =
      Except.ok (CallRouteBuilded ResultCode.NoError []
        (if route.isValid then
          afterSendIfAttached env
            (EngineCall.SetModelViewRect
              (env.RectScale (env.GetLimitRect route.poly) kRouteScaleMultiplier) true (-1) true)
            (afterSendIfAttached env EngineCall.StopLocationFollow
              (afterInsertRoute env route
                (afterSendIfAttached env EngineCall.RemoveAllRoutePreviewSegments s)))
        else
          afterSendIfAttached env EngineCall.StopLocationFollow
            (afterInsertRoute env route
              (afterSendIfAttached env EngineCall.RemoveAllRoutePreviewSegments s)))) := by
  by_cases hv : route.isValid = true <;>
  simp [OnBuildRouteReady, sendEngineIfAttached_eq, InsertRoute_eq, hv, bind, Except.bind, pure,
    Except.pure]

theorem OnBuildRouteReady_failed_eq (env : Env σ ε) (route : Route) (code : ResultCode)
    (s : State σ ε) (hcode : code ≠ ResultCode.NoError) :
    OnBuildRouteReady env route code s =
      Except.ok (CallRouteBuilded code route.absentCountries
        (if code ≠ ResultCode.NeedMoreMaps then
          afterRemoveRoute env true
            (afterSendIfAttached env EngineCall.RemoveAllRoutePreviewSegments s)
        else afterSendIfAttached env EngineCall.RemoveAllRoutePreviewSegments s)) := by
  by_cases hm : code = ResultCode.NeedMoreMaps <;>
  simp [OnBuildRouteReady, sendEngineIfAttached_eq, RemoveRoute_eq, hcode, hm, bind, Except.bind,
    pure, Except.pure]

theorem BuildRoute_validated (env : Env σ ε) (timeoutSec : Nat) (s : State σ ε)
    (marks pts : List RouteMarkData) (front back : RouteMarkData)
    (hstore : s.m_bmManager = some marks) (hmany : ¬ marks.length < 2)
    (hres : updateMyPosition env s.m_drapeEngine (RoutePointsLayout.GetRoutePoints marks) =
      Except.ok (some pts))
    (hdistinct : hasEqualPoints env kEps pts = false)
    (hfront : pts.head? = some front) (hback : pts.getLast? = some back) :
    BuildRoute env timeoutSec s = startBuild env timeoutSec pts front back s := by
  have hlen : ¬ (RoutePointsLayout.GetRoutePoints marks).length < 2 := by
    rw [GetRoutePoints_length]; exact hmany
  simp [BuildRoute, GetRoutePoints, hstore, hlen, hres, hdistinct, hfront, hback, bind,
    Except.bind, pure, Except.pure]

theorem bind_BuildRoute_validated (env : Env σ ε) (timeoutSec : Nat)
    (marks pts : List RouteMarkData) (front back : RouteMarkData)
    (r : Except Fault (State σ ε))
    (hr : ∀ s, r = Except.ok s → s.m_bmManager = some marks ∧
      updateMyPosition env s.m_drapeEngine (RoutePointsLayout.GetRoutePoints marks) =
        Except.ok (some pts))
    (hmany : ¬ marks.length < 2) (hdistinct : hasEqualPoints env kEps pts = false)
    (hfront : pts.head? = some front) (hback : pts.getLast? = some back) :
    r >>= BuildRoute env timeoutSec = r >>= startBuild env timeoutSec pts front back := by
  cases r with
  | error f => rfl
  | ok s =>
    obtain ⟨hstore, hres⟩ := hr s rfl
    exact BuildRoute_validated env timeoutSec s marks pts front back hstore hmany hres hdistinct
      hfront hback

theorem twoPoints_distinct :
    hasEqualPoints specEnv kEps
      [markAt RouteMarkType.Start 0 0, markAt RouteMarkType.Finish 1 1] = false := by
  norm_num [hasEqualPoints, specEnv, EqualDxDy, markAt, kEps]

theorem supersededRun_eq :
    supersededRun =
      startBuild specEnv 10 [markAt RouteMarkType.Start 0 0, markAt RouteMarkType.Finish 1 1]
          (markAt RouteMarkType.Start 0 0) (markAt RouteMarkType.Finish 1 1) twoPointState >>=
        startBuild specEnv 10 [markAt RouteMarkType.Start 0 0, markAt RouteMarkType.Finish 1 1]
          (markAt RouteMarkType.Start 0 0) (markAt RouteMarkType.Finish 1 1) := by
  unfold supersededRun
  rw [BuildRoute_validated specEnv 10 twoPointState
    [markAt RouteMarkType.Start 0 0, markAt RouteMarkType.Finish 1 1]
    [markAt RouteMarkType.Start 0 0, markAt RouteMarkType.Finish 1 1]
    (markAt RouteMarkType.Start 0 0) (markAt RouteMarkType.Finish 1 1)
    rfl (by decide) rfl twoPoints_distinct rfl rfl]
  apply bind_BuildRoute_validated specEnv 10
    [markAt RouteMarkType.Start 0 0, markAt RouteMarkType.Finish 1 1]
    [markAt RouteMarkType.Start 0 0, markAt RouteMarkType.Finish 1 1]
    (markAt RouteMarkType.Start 0 0) (markAt RouteMarkType.Finish 1 1) _ _ (by decide)
    twoPoints_distinct rfl rfl
  intro s hs
  obtain rfl := Except.ok.inj hs
  exact ⟨rfl, rfl⟩

theorem CloseRouting_false_eq (env : Env σ ε) (s : State σ ε) :
    CloseRouting env false s = Except.ok (afterCloseRouting env s) := by
  by_cases hb : env.IsBuilt (afterSendIfAttached env EngineCall.RemoveAllRoutePreviewSegments
      s).m_routingSession = true <;>
  simp [CloseRouting, afterCloseRouting, sendEngineIfAttached_eq, RemoveRoute_eq, hb, bind,
    Except.bind, pure, Except.pure]

theorem addPreviewSegments_attached (env : Env σ ε) :
    ∀ (pts : List RouteMarkData) (rect : RectD) (s : State σ ε) (e : ε),
      s.m_drapeEngine = some e →
      addPreviewSegments env pts rect s =
        Except.ok (previewRect env pts rect,
          { s with m_drapeEngine := some (engineAfterCalls env (previewCalls pts) e)
                   trace := s.trace ++ (previewCalls pts).map Event.Engine }) := by
  intro pts
  induction pts with
  | nil =>
    intro rect s e h
    simp [addPreviewSegments, previewRect, previewCalls, engineAfterCalls, pure, Except.pure, ← h]
  | cons p rest ih =>
    intro rect s e h
    cases rest with
    | nil =>
      simp [addPreviewSegments, previewRect, previewCalls, engineAfterCalls, pure, Except.pure, ← h]
    | cons q tail =>
      rw [addPreviewSegments]
      simp only [sendEngine, h, bind, Except.bind, pure, Except.pure]
      rw [ih _ _ (env.EngineApply (EngineCall.AddRoutePreviewSegment p.m_position q.m_position) e)
        rfl]
      simp [previewRect, previewCalls, engineAfterCalls]

theorem startBuild_eq (env : Env σ ε) (timeoutSec : Nat) (pts : List RouteMarkData)
    (front back : RouteMarkData) (s : State σ ε)
    (hrouter : s.m_currentRouterType ≠ RouterType.Count) :
    startBuild env timeoutSec pts front back s =
      Except.ok (afterStartBuild env timeoutSec pts front back s) := by
  by_cases hact : env.IsActive s.m_routingSession = true
  · cases h : (afterCloseRouting env
        { s with trace := s.trace ++ [Event.SendPushWooshTag s.m_currentRouterType
          (!front.m_isMyPosition && !back.m_isMyPosition)] }).m_drapeEngine with
    | none =>
      simp [startBuild, IsRoutingActive, hrouter, hact, CloseRouting_false_eq, h, afterStartBuild,
        afterImplicitClose, afterShowPreview, bind, Except.bind, pure, Except.pure]
    | some e =>
      simp [startBuild, IsRoutingActive, hrouter, hact, CloseRouting_false_eq, h, afterStartBuild,
        afterImplicitClose, afterShowPreview, showPreviewCalls, engineAfterCalls,
        addPreviewSegments_attached env pts env.RectEmpty _ e h, sendEngine, bind, Except.bind,
        pure, Except.pure, List.foldl_append]
  · cases h : s.m_drapeEngine with
    | none =>
      simp [startBuild, IsRoutingActive, hrouter, hact, h, afterStartBuild, afterImplicitClose, afterShowPreview,
        bind, Except.bind, pure, Except.pure]
    | some e =>
      have hpre := addPreviewSegments_attached env pts env.RectEmpty
        { s with trace := s.trace ++ [Event.SendPushWooshTag s.m_currentRouterType
          (!front.m_isMyPosition && !back.m_isMyPosition)] } e h
      simp only [h] at hpre
      simp [startBuild, IsRoutingActive, hrouter, hact, h, afterStartBuild, afterImplicitClose,
        afterShowPreview, showPreviewCalls, engineAfterCalls, hpre, sendEngine, bind, Except.bind,
        pure, Except.pure, List.foldl_append]

theorem hasEqualPoints_eq_false_iff (env : Env σ ε) (eps : ℚ) (pts : List RouteMarkData) :
    hasEqualPoints env eps pts = false ↔ PairwiseDistinct env eps pts := by
  induction pts with
  | nil => simp [hasEqualPoints, PairwiseDistinct]
  | cons p rest ih =>
    simp only [PairwiseDistinct] at ih
    simp [hasEqualPoints, PairwiseDistinct, ih]

theorem quietCalls_trans {s s2 s3 : State σ ε} (h1 : QuietCalls s s2) (h2 : QuietCalls s2 s3) :
    QuietCalls s s3 := by
  obtain ⟨c1, ht1, hc1⟩ := h1
  obtain ⟨c2, ht2, hc2⟩ := h2
  refine ⟨c1 ++ c2, by rw [ht2, ht1, List.append_assoc], ?_⟩
  intro ev hev
  rcases List.mem_append.mp hev with h | h
  · exact hc1 ev h
  · exact hc2 ev h

theorem quietCalls_of_engineOnly {s s2 : State σ ε} (h : EngineCallsOnly s s2) :
    QuietCalls s s2 := by
  obtain ⟨calls, ht, hc⟩ := h
  refine ⟨calls, ht, ?_⟩
  intro ev hev
  have := hc ev hev
  cases ev <;> simp_all [Event.isEngine, Event.isSessionBuildRoute, Event.isRoutingCallback]

theorem afterCloseRouting_quiet (env : Env σ ε) (s : State σ ε) :
    QuietCalls s (afterCloseRouting env s) := by
  obtain ⟨s2, hclose, _, htrace, _⟩ := CloseRouting_false env s
  rw [CloseRouting_false_eq] at hclose
  obtain rfl := Except.ok.inj hclose
  refine ⟨closeEvents env s, htrace, ?_⟩
  intro ev hev
  exact ⟨(closeEvents_plain env s ev hev).2.1, (closeEvents_plain env s ev hev).1⟩

theorem afterShowPreview_engineOnly (env : Env σ ε) (pts : List RouteMarkData) (s : State σ ε) :
    EngineCallsOnly s (afterShowPreview env pts s) := by
  cases h : s.m_drapeEngine with
  | none => exact ⟨[], by simp [afterShowPreview, h], by simp⟩
  | some e =>
    refine ⟨(showPreviewCalls env pts).map Event.Engine, by simp [afterShowPreview, h], ?_⟩
    intro ev hev
    obtain ⟨call, _, rfl⟩ := List.mem_map.mp hev
    rfl

theorem afterImplicitClose_quiet (env : Env σ ε) (front back : RouteMarkData) (s : State σ ε) :
    QuietCalls s (afterImplicitClose env front back s) := by
  have htag : QuietCalls s
      { s with trace := s.trace ++ [Event.SendPushWooshTag s.m_currentRouterType
        (!front.m_isMyPosition && !back.m_isMyPosition)] } :=
    ⟨[Event.SendPushWooshTag s.m_currentRouterType
      (!front.m_isMyPosition && !back.m_isMyPosition)], rfl,
      by simp [Event.isSessionBuildRoute, Event.isRoutingCallback]⟩
  by_cases hact : env.IsActive s.m_routingSession = true
  · simp only [afterImplicitClose, IsRoutingActive, hact, if_true]
    exact quietCalls_trans htag (afterCloseRouting_quiet env _)
  · simp only [afterImplicitClose, IsRoutingActive, hact]
    exact htag

theorem afterStartBuild_trace (env : Env σ ε) (timeoutSec : Nat) (pts : List RouteMarkData)
    (front back : RouteMarkData) (s : State σ ε) :
    ∃ pre, (afterStartBuild env timeoutSec pts front back s).trace =
        s.trace ++ pre ++ [Event.SessionSetUserCurrentPosition front.m_position,
          Event.SessionBuildRoute front.m_position back.m_position timeoutSec] ∧
      ∀ ev ∈ pre, Event.isSessionBuildRoute ev = false ∧ Event.isRoutingCallback ev = false := by
  obtain ⟨pre, htrace, hpre⟩ := quietCalls_trans (afterImplicitClose_quiet env front back s)
    (quietCalls_of_engineOnly (afterShowPreview_engineOnly env pts _))
  exact ⟨pre, by simp [afterStartBuild, htrace], hpre⟩

theorem afterStartBuild_attached (env : Env σ ε) (timeoutSec : Nat) (pts : List RouteMarkData)
    (front back : RouteMarkData) (s : State σ ε) (e : ε) (hengine : s.m_drapeEngine = some e) :
    (afterStartBuild env timeoutSec pts front back s).m_drapeSubroutes =
        (if env.IsActive s.m_routingSession then [] else s.m_drapeSubroutes) ∧
      (afterStartBuild env timeoutSec pts front back s).m_currentRouterType =
        s.m_currentRouterType ∧
      ∃ e2, (afterStartBuild env timeoutSec pts front back s).m_drapeEngine = some e2 := by
  by_cases hact : env.IsActive s.m_routingSession = true
  · by_cases hb : env.IsBuilt s.m_routingSession = true <;>
    simp [afterStartBuild, afterShowPreview, afterImplicitClose, afterCloseRouting,
      afterRemoveRoute, afterSendIfAttached, IsRoutingActive, hact, hb, hengine]
  · simp [afterStartBuild, afterShowPreview, afterImplicitClose, IsRoutingActive, hact, hengine]

theorem OnBuildRouteReady_ok_attached (env : Env σ ε) (route : Route) (s : State σ ε) (e : ε)
    (hengine : s.m_drapeEngine = some e) (hpoly : 2 ≤ route.poly.length) :
    ∃ s3, OnBuildRouteReady env route ResultCode.NoError s = Except.ok s3 ∧
      s3.m_drapeSubroutes =
        s.m_drapeSubroutes ++ [builtHandle env route s.m_currentRouterType e] := by
  have hlen : ¬ route.poly.length < 2 := by omega
  refine ⟨_, OnBuildRouteReady_ok_eq env route s, ?_⟩
  by_cases hv : route.isValid = true <;>
  simp [hv, CallRouteBuilded, afterSendIfAttached, afterInsertRoute, hengine, hlen, builtHandle]

theorem OnBuildRouteReady_ok_attached_trace (env : Env σ ε) (route : Route) (s : State σ ε)
    (e : ε) (hengine : s.m_drapeEngine = some e) (hpoly : 2 ≤ route.poly.length) :
    ∃ s3, OnBuildRouteReady env route ResultCode.NoError s = Except.ok s3 ∧
      s3.m_drapeSubroutes =
        s.m_drapeSubroutes ++ [builtHandle env route s.m_currentRouterType e] ∧
      s3.trace = s.trace ++ builtEvents env route s.m_currentRouterType e := by
  have hlen : ¬ route.poly.length < 2 := by omega
  refine ⟨_, OnBuildRouteReady_ok_eq env route s, ?_⟩
  by_cases hv : route.isValid = true <;>
  simp [hv, CallRouteBuilded, afterSendIfAttached, afterInsertRoute, hengine, hlen, builtHandle,
    builtEvents]

theorem builtRun_eq :
    builtRun =
      startBuild specEnv 10 [markAt RouteMarkType.Start 0 0, markAt RouteMarkType.Finish 1 1]
          (markAt RouteMarkType.Start 0 0) (markAt RouteMarkType.Finish 1 1) twoPointState >>=
        OnBuildRouteReady specEnv threePointRoute ResultCode.NoError := by
  unfold builtRun
  rw [BuildRoute_validated specEnv 10 twoPointState
    [markAt RouteMarkType.Start 0 0, markAt RouteMarkType.Finish 1 1]
    [markAt RouteMarkType.Start 0 0, markAt RouteMarkType.Finish 1 1]
    (markAt RouteMarkType.Start 0 0) (markAt RouteMarkType.Finish 1 1)
    rfl (by decide) rfl twoPoints_distinct rfl rfl]

theorem rebuiltAfterReattach_eq :
    rebuiltAfterReattach =
      reattachedRun >>=
        startBuild specEnv 10 [markAt RouteMarkType.Start 0 0, markAt RouteMarkType.Finish 1 1]
          (markAt RouteMarkType.Start 0 0) (markAt RouteMarkType.Finish 1 1) >>=
        OnBuildRouteReady specEnv threePointRoute ResultCode.NoError := by
  unfold rebuiltAfterReattach
  rw [bind_BuildRoute_validated specEnv 10
    [markAt RouteMarkType.Start 0 0, markAt RouteMarkType.Finish 1 1]
    [markAt RouteMarkType.Start 0 0, markAt RouteMarkType.Finish 1 1]
    (markAt RouteMarkType.Start 0 0) (markAt RouteMarkType.Finish 1 1) reattachedRun _ (by decide)
    twoPoints_distinct rfl rfl]
  intro s hs
  rw [reattachedRun, builtRun_eq] at hs
  obtain rfl := Except.ok.inj hs
  exact ⟨rfl, rfl⟩

theorem specEnv_generation_monotone (n : SpecSession) (purpose : Purpose) (p q : PointD)
    (timeoutSec : Nat) (st : SessionState) (info : GpsInfo) (kind : RouterKind) (b : Bool) :
    n.generation purpose ≤ (specEnv.Reset n).generation purpose ∧
      n.generation purpose ≤ (specEnv.EmitCloseRoutingEvent n).generation purpose ∧
      n.generation purpose ≤ (specEnv.SetUserCurrentPosition p n).generation purpose ∧
      n.generation purpose ≤ (specEnv.SessionBuildRoute p q timeoutSec n).generation purpose ∧
      n.generation purpose ≤ (specEnv.RebuildRoute p timeoutSec st n).generation purpose ∧
      n.generation purpose ≤ (specEnv.EnableFollowMode n).2.generation purpose ∧
      n.generation purpose ≤ (specEnv.DisableFollowMode n).2.generation purpose ∧
      n.generation purpose ≤ (specEnv.OnLocationPositionChanged info n).2.generation purpose ∧
      n.generation purpose ≤ (specEnv.SetRoutingSettings kind n).generation purpose ∧
      n.generation purpose ≤ (specEnv.SessionSetRouter kind b n).generation purpose := by
  cases purpose <;>
  by_cases h1 : n.state = NavigationState.Built <;>
  by_cases h2 : n.state = NavigationState.Following <;>
  simp [specEnv, SpecSession.generation, h1, h2]

theorem twoPointState_submitted :
    BuildRoute specEnv 10 twoPointState = Except.ok onceSubmittedState :=
  (BuildRoute_validated specEnv 10 twoPointState
    [markAt RouteMarkType.Start 0 0, markAt RouteMarkType.Finish 1 1]
    [markAt RouteMarkType.Start 0 0, markAt RouteMarkType.Finish 1 1]
    (markAt RouteMarkType.Start 0 0) (markAt RouteMarkType.Finish 1 1)
    rfl (by decide) rfl twoPoints_distinct rfl rfl).trans
    (startBuild_eq specEnv 10 _ _ _ twoPointState (by decide))

end Lemmas

/-! ## The claims -/

section Claims

variable {σ ε : Type}

/-- C1: when the store holds fewer than two route points, BuildRoute is the notification
Cancelled followed by CloseRouting(false): it returns, the stored points are the ones before
the call, the calls it makes are the notification and then those of CloseRouting, and none of
the latter is a second notification or a BuildRoute of the routing session. -/
theorem BuildRoute_fewer_than_two_points (env : Env σ ε) (timeoutSec : Nat) (s : State σ ε)
    (marks : List RouteMarkData) (hstore : s.m_bmManager = some marks) (hfew : marks.length < 2) :
    BuildRoute env timeoutSec s =
        CloseRouting env false (CallRouteBuilded ResultCode.Cancelled [] s) ∧
      ∃ s2, BuildRoute env timeoutSec s = Except.ok s2 ∧
        s2.m_bmManager = some marks ∧
        s2.trace = s.trace ++ Event.RoutingCallback ResultCode.Cancelled [] :: closeEvents env s ∧
        ∀ ev ∈ closeEvents env s,
          ev.isRoutingCallback = false ∧ ev.isSessionBuildRoute = false := by
  have hlen : (RoutePointsLayout.GetRoutePoints marks).length < 2 := by
    rw [GetRoutePoints_length]; exact hfew
  have hbuild : BuildRoute env timeoutSec s =
      CloseRouting env false (CallRouteBuilded ResultCode.Cancelled [] s) := by
    simp [BuildRoute, GetRoutePoints, hstore, hlen, bind, Except.bind, pure, Except.pure]
  refine ⟨hbuild, ?_⟩
  obtain ⟨s2, hclose, hmarks, htrace, _⟩ :=
    CloseRouting_false env (CallRouteBuilded ResultCode.Cancelled [] s)
  refine ⟨s2, hbuild.trans hclose, ?_, ?_, ?_⟩
  · rw [hmarks]; exact hstore
  · rw [htrace]; simp [CallRouteBuilded, closeEvents]
  · intro ev hev
    exact ⟨(closeEvents_plain env s ev hev).1, (closeEvents_plain env s ev hev).2.1⟩

/-- C1 at a store with one point: Start = (0, 0), an engine attached, nothing built. -/
theorem BuildRoute_fewer_than_two_points_witness :
    ∃ s2, BuildRoute specEnv 10 onePointState = Except.ok s2 ∧
      s2.m_bmManager = some [markAt RouteMarkType.Start 0 0] ∧
      s2.trace = onePointState.trace ++
        Event.RoutingCallback ResultCode.Cancelled [] :: closeEvents specEnv onePointState :=
  let h := BuildRoute_fewer_than_two_points specEnv 10 onePointState
    [markAt RouteMarkType.Start 0 0] rfl (by decide)
  h.2.imp fun _ h2 => ⟨h2.1, h2.2.1, h2.2.2.1⟩

/-- C2: when the resolved route points hold two points, at any indices i < j, that EqualDxDy
finds equal up to kEps, BuildRoute is the notification Cancelled followed by
CloseRouting(false): it returns, and after the notification it makes only the calls of
CloseRouting, none of which is a BuildRoute of the routing session, an AddRoutePreviewSegment
or a second notification. -/
theorem BuildRoute_coincident_points (env : Env σ ε) (timeoutSec : Nat) (s : State σ ε)
    (marks pts : List RouteMarkData) (i j : Nat) (p q : RouteMarkData)
    (hstore : s.m_bmManager = some marks)
    (hres : updateMyPosition env s.m_drapeEngine (RoutePointsLayout.GetRoutePoints marks) =
      Except.ok (some pts))
    (hp : pts[i]? = some p) (hq : pts[j]? = some q) (hij : i < j)
    (heq : env.EqualDxDy p.m_position q.m_position kEps = true) :
    BuildRoute env timeoutSec s =
        CloseRouting env false (CallRouteBuilded ResultCode.Cancelled [] s) ∧
      ∃ s2, BuildRoute env timeoutSec s = Except.ok s2 ∧
        s2.trace = s.trace ++ Event.RoutingCallback ResultCode.Cancelled [] :: closeEvents env s ∧
        ∀ ev ∈ closeEvents env s,
          ev.isRoutingCallback = false ∧ ev.isSessionBuildRoute = false ∧
            ev.isAddRoutePreviewSegment = false := by
  have hj : j < pts.length := (List.getElem?_eq_some.mp hq).1
  have hlen := updateMyPosition_length env s.m_drapeEngine _ pts hres
  rw [GetRoutePoints_length] at hlen
  have hmany : ¬ marks.length < 2 := by omega
  have hbuild := BuildRoute_equal_points env timeoutSec s marks pts hstore hmany hres
    (hasEqualPoints_of_pair env kEps pts i j p q hp hq hij heq)
  obtain ⟨s2, hok, _, htrace⟩ := cancelled_and_closed env timeoutSec s hbuild
  exact ⟨hbuild, s2, hok, htrace, closeEvents_plain env s⟩

/-- C2 at the store Start = (0, 0), intermediate (5, 5), Finish = (0, 0): the coinciding points
are the first and the third. -/
theorem BuildRoute_coincident_points_witness :
    ∃ s2, BuildRoute specEnv 10 coincidentEndsState = Except.ok s2 ∧
      s2.trace = coincidentEndsState.trace ++
        Event.RoutingCallback ResultCode.Cancelled [] :: closeEvents specEnv coincidentEndsState ∧
      ∀ ev ∈ closeEvents specEnv coincidentEndsState,
        ev.isRoutingCallback = false ∧ ev.isSessionBuildRoute = false ∧
          ev.isAddRoutePreviewSegment = false :=
  (BuildRoute_coincident_points specEnv 10 coincidentEndsState
    [markAt RouteMarkType.Start 0 0, markAt RouteMarkType.Intermediate 5 5,
      markAt RouteMarkType.Finish 0 0]
    [markAt RouteMarkType.Start 0 0, markAt RouteMarkType.Intermediate 5 5,
      markAt RouteMarkType.Finish 0 0]
    0 2 (markAt RouteMarkType.Start 0 0) (markAt RouteMarkType.Finish 0 0)
    rfl rfl rfl rfl (by decide)
    (by simp [specEnv, EqualDxDy, markAt, kEps])).2

/-- C3: with the comparison of section 4.3 (c) as the spec words it (inclusive on each axis), the
store Start = (0, 0), Finish = (0, 0.0000001) makes BuildRoute notify Cancelled and close
routing, and the store then still holds the same Start and Finish. -/
theorem BuildRoute_points_epsilon_apart (env : Env σ ε) (timeoutSec : Nat) (s : State σ ε)
    (hcmp : env.EqualDxDy = EqualDxDy)
    (hstore : s.m_bmManager =
      some [markAt RouteMarkType.Start 0 0, markAt RouteMarkType.Finish 0 (1 / 10000000)]) :
    ∃ s2, BuildRoute env timeoutSec s = Except.ok s2 ∧
      s2.m_bmManager =
        some [markAt RouteMarkType.Start 0 0, markAt RouteMarkType.Finish 0 (1 / 10000000)] ∧
      s2.trace = s.trace ++ Event.RoutingCallback ResultCode.Cancelled [] :: closeEvents env s := by
  have hres : updateMyPosition env s.m_drapeEngine (RoutePointsLayout.GetRoutePoints
      [markAt RouteMarkType.Start 0 0, markAt RouteMarkType.Finish 0 (1 / 10000000)]) =
      Except.ok (some [markAt RouteMarkType.Start 0 0,
        markAt RouteMarkType.Finish 0 (1 / 10000000)]) := by
    simp [RoutePointsLayout.GetRoutePoints, updateMyPosition, markAt, bind, Except.bind, pure,
      Except.pure]
  have heq : hasEqualPoints env kEps [markAt RouteMarkType.Start 0 0,
      markAt RouteMarkType.Finish 0 (1 / 10000000)] = true := by
    simp [hasEqualPoints, hcmp, EqualDxDy, markAt, kEps, abs_of_nonneg]
  have hbuild := BuildRoute_equal_points env timeoutSec s _ _ hstore (by decide) hres heq
  obtain ⟨s2, hok, hmarks, htrace⟩ := cancelled_and_closed env timeoutSec s hbuild
  exact ⟨s2, hok, hmarks.trans hstore, htrace⟩

/-- C3 run on the collaborators of the spec, from a manager that has built nothing: the calls
are the notification, the removal of the preview and the reset of the session. -/
theorem BuildRoute_points_epsilon_apart_witness :
    ∃ s2, BuildRoute specEnv 10 epsilonApartState = Except.ok s2 ∧
      s2.m_bmManager =
        some [markAt RouteMarkType.Start 0 0, markAt RouteMarkType.Finish 0 (1 / 10000000)] ∧
      s2.trace = epsilonApartState.trace ++
        Event.RoutingCallback ResultCode.Cancelled [] :: closeEvents specEnv epsilonApartState :=
  BuildRoute_points_epsilon_apart specEnv 10 epsilonApartState rfl rfl

/-- C4: when the store holds at least two points, one of them a live-position point, and the
attached engine has no position to give, BuildRoute returns the state it was called in with one
more entry in the log, the notification NoCurrentPosition: stored points, recorded segments,
session and engine are untouched, whether or not two stored points coincide. -/
theorem BuildRoute_no_current_position (env : Env σ ε) (timeoutSec : Nat) (s : State σ ε)
    (marks : List RouteMarkData) (e : ε) (hstore : s.m_bmManager = some marks)
    (hmany : ¬ marks.length < 2) (hlive : ∃ p ∈ marks, p.m_isMyPosition = true)
    (hengine : s.m_drapeEngine = some e) (hpos : env.GetMyPosition e = none) :
    BuildRoute env timeoutSec s =
      Except.ok { s with trace := s.trace ++ [Event.RoutingCallback ResultCode.NoCurrentPosition []] } := by
  have hlen : ¬ (RoutePointsLayout.GetRoutePoints marks).length < 2 := by
    rw [GetRoutePoints_length]; exact hmany
  have hlive2 : ∃ p ∈ RoutePointsLayout.GetRoutePoints marks, p.m_isMyPosition = true := by
    obtain ⟨p, hp, hmy⟩ := hlive
    exact ⟨p, (mem_GetRoutePoints marks p).mpr hp, hmy⟩
  simp [BuildRoute, GetRoutePoints, hstore, hlen, hengine,
    updateMyPosition_unavailable env e hpos _ hlive2, CallRouteBuilded, bind, Except.bind, pure,
    Except.pure]

/-- C4 at a store whose live-position Start and Finish coincide: the answer is
NoCurrentPosition, not Cancelled. -/
theorem BuildRoute_no_current_position_witness :
    BuildRoute specEnv 10 noPositionState =
      Except.ok { noPositionState with
        trace := noPositionState.trace ++ [Event.RoutingCallback ResultCode.NoCurrentPosition []] } :=
  BuildRoute_no_current_position specEnv 10 noPositionState
    [{ markAt RouteMarkType.Start 0 0 with m_isMyPosition := true }, markAt RouteMarkType.Finish 0 0]
    freshEngine rfl (by decide)
    ⟨{ markAt RouteMarkType.Start 0 0 with m_isMyPosition := true }, by simp, rfl⟩ rfl rfl

/-- C5: in every store, AddRoutePoint(a) followed by AddRoutePoint(b), both of role Start or both
of role Finish, leaves exactly one point of that role, and it is b as AddRoutePoint stores it:
position, role, index and live-position flag are those of b, and it is visible unless it is the
live position.  Moreover a single AddRoutePoint keeps a store with at most one Start and at most
one Finish that way. -/
theorem AddRoutePoint_replaces_end_point (env : Env σ ε) (s : State σ ε)
    (marks : List RouteMarkData) (a b : RouteMarkData) (type : RouteMarkType)
    (hstore : s.m_bmManager = some marks)
    (htype : type = RouteMarkType.Start ∨ type = RouteMarkType.Finish)
    (ha : a.m_pointType = type) (hb : b.m_pointType = type) :
    (∃ s2 marks2 m, (AddRoutePoint env a s >>= AddRoutePoint env b) = Except.ok s2 ∧
        s2.m_bmManager = some marks2 ∧ pointsOfRole type marks2 = [m] ∧
        m.m_position = b.m_position ∧ m.m_pointType = b.m_pointType ∧
        m.m_intermediateIndex = b.m_intermediateIndex ∧ m.m_isMyPosition = b.m_isMyPosition ∧
        m.m_isVisible = !b.m_isMyPosition) ∧
      ∀ d : RouteMarkData, AtMostOneStartAndFinish marks →
        ∃ s3 marks3, AddRoutePoint env d s = Except.ok s3 ∧ s3.m_bmManager = some marks3 ∧
          AtMostOneStartAndFinish marks3 := by
  have hne : type ≠ RouteMarkType.Intermediate := by
    rcases htype with h | h <;> simp [h]
  constructor
  · have h1 := AddRoutePoint_end_point env a s marks hstore (by rw [ha]; exact hne)
    have h2 := AddRoutePoint_end_point env b
      { s with
        m_bmManager := some (marks.filter (fun m => !(m.m_pointType == a.m_pointType)) ++ [asStored a]) }
      _ rfl (by rw [hb]; exact hne)
    have h12 := (congrArg (fun r => r >>= AddRoutePoint env b) h1).trans h2
    exact ⟨_, _, asStored b, h12, rfl, by rw [hb]; exact pointsOfRole_replaced type _ (asStored b) hb,
      rfl, rfl, rfl, rfl, rfl⟩
  · intro d hinv
    by_cases hd : d.m_pointType = RouteMarkType.Intermediate
    · rcases AddRoutePoint_intermediate env d s marks hstore hd with h | h
      · exact ⟨s, marks, h, hstore, hinv⟩
      · refine ⟨_, _, h, rfl, ?_⟩
        have hs : ¬ d.m_pointType = RouteMarkType.Start := by simp [hd]
        have hf : ¬ d.m_pointType = RouteMarkType.Finish := by simp [hd]
        simpa [AtMostOneStartAndFinish, pointsOfRole, List.filter_append, asStored, hs, hf]
          using hinv
    · refine ⟨_, _, AddRoutePoint_end_point env d s marks hstore hd, rfl, ?_⟩
      cases hrole : d.m_pointType with
      | Intermediate => exact absurd hrole hd
      | Start =>
        constructor
        · rw [pointsOfRole_replaced RouteMarkType.Start marks (asStored d) hrole]
          simp
        · rw [pointsOfRole_other RouteMarkType.Start RouteMarkType.Finish marks (asStored d) hrole
            (by decide)]
          exact hinv.2
      | Finish =>
        constructor
        · rw [pointsOfRole_other RouteMarkType.Finish RouteMarkType.Start marks (asStored d) hrole
            (by decide)]
          exact hinv.1
        · rw [pointsOfRole_replaced RouteMarkType.Finish marks (asStored d) hrole]
          simp

/-- C5 at a store that already holds two Start points: after adding Start = (7, 7) and then
Start = (8, 8), the only Start left is the one at (8, 8). -/
theorem AddRoutePoint_replaces_end_point_witness :
    ∃ s2 marks2 m,
      (AddRoutePoint specEnv (markAt RouteMarkType.Start 7 7) crowdedState >>=
        AddRoutePoint specEnv (markAt RouteMarkType.Start 8 8)) = Except.ok s2 ∧
      s2.m_bmManager = some marks2 ∧ pointsOfRole RouteMarkType.Start marks2 = [m] ∧
      m.m_position = (markAt RouteMarkType.Start 8 8).m_position ∧
      m.m_pointType = (markAt RouteMarkType.Start 8 8).m_pointType ∧
      m.m_intermediateIndex = (markAt RouteMarkType.Start 8 8).m_intermediateIndex ∧
      m.m_isMyPosition = (markAt RouteMarkType.Start 8 8).m_isMyPosition ∧
      m.m_isVisible = !(markAt RouteMarkType.Start 8 8).m_isMyPosition :=
  (AddRoutePoint_replaces_end_point specEnv crowdedState
    [markAt RouteMarkType.Start 1 1, markAt RouteMarkType.Finish 2 2,
      markAt RouteMarkType.Start 3 3, markAt RouteMarkType.Intermediate 4 4,
      markAt RouteMarkType.Finish 5 5]
    (markAt RouteMarkType.Start 7 7) (markAt RouteMarkType.Start 8 8) RouteMarkType.Start
    rfl (Or.inl rfl) rfl rfl).1

/-- C6: for a result code other than NoError, OnRebuildRouteReady returns after hiding the
preview: the recorded segment handles, the session and the stored points are as before, and the
only call it can have made is RemoveAllRoutePreviewSegments on an attached engine, so no
RemoveRouteSegment, no AddRouteSegment and no notification of the result callback. -/
theorem OnRebuildRouteReady_failed (env : Env σ ε) (route : Route) (code : ResultCode)
    (s : State σ ε) (hcode : code ≠ ResultCode.NoError) :
    ∃ s2, OnRebuildRouteReady env route code s = Except.ok s2 ∧
      s2.m_drapeSubroutes = s.m_drapeSubroutes ∧
      s2.m_routingSession = s.m_routingSession ∧
      s2.m_bmManager = s.m_bmManager ∧
      s2.trace = s.trace ++
        (if s.m_drapeEngine.isSome then [Event.Engine EngineCall.RemoveAllRoutePreviewSegments]
         else []) := by
  refine ⟨afterSendIfAttached env EngineCall.RemoveAllRoutePreviewSegments s, ?_, ?_⟩
  · simp [OnRebuildRouteReady, sendEngineIfAttached_eq, hcode, bind, Except.bind, pure,
      Except.pure]
  · cases he : s.m_drapeEngine <;> simp [afterSendIfAttached, he]

/-- C6 while following a route with the handles 3 and 4 recorded: the rebuild found no route. -/
theorem OnRebuildRouteReady_failed_witness :
    ∃ s2, OnRebuildRouteReady specEnv noRoute ResultCode.RouteNotFound followingState = Except.ok s2 ∧
      s2.m_drapeSubroutes = followingState.m_drapeSubroutes ∧
      s2.m_routingSession = followingState.m_routingSession ∧
      s2.m_bmManager = followingState.m_bmManager ∧
      s2.trace = followingState.trace ++
        (if followingState.m_drapeEngine.isSome then
          [Event.Engine EngineCall.RemoveAllRoutePreviewSegments]
         else []) :=
  OnRebuildRouteReady_failed specEnv noRoute ResultCode.RouteNotFound followingState (by decide)

/-- C7 as amended: with an engine attached, OnRebuildRouteReady(route, NoError) returns, having
called RemoveAllRoutePreviewSegments, then RemoveRouteSegment(handle, false) for every recorded
handle in order, then AddRouteSegment once when the polyline has at least two points, then the
result callback.  The recorded handles afterwards are exactly the handle that AddRouteSegment
returned (none for a shorter polyline), so a handle recorded before stays recorded only if the
engine hands it out again. -/
theorem OnRebuildRouteReady_succeeded (env : Env σ ε) (route : Route) (s : State σ ε) (e : ε)
    (hengine : s.m_drapeEngine = some e) :
    ∃ s2, OnRebuildRouteReady env route ResultCode.NoError s = Except.ok s2 ∧
      s2.m_drapeSubroutes =
        (if route.poly.length < 2 then [] else [rebuiltHandle env route s e]) ∧
      s2.trace = s.trace ++
        (Event.Engine EngineCall.RemoveAllRoutePreviewSegments ::
          (removeEvents false s.m_drapeSubroutes ++
            ((if route.poly.length < 2 then [] else
                [Event.Engine (EngineCall.AddRouteSegment
                  (makeSegment s.m_currentRouterType route) (rebuiltHandle env route s e))]) ++
              [Event.RoutingCallback ResultCode.NoError []]))) ∧
      (∀ h ∈ s.m_drapeSubroutes,
        Event.Engine (EngineCall.RemoveRouteSegment h false) ∈ s2.trace) ∧
      (rebuiltHandle env route s e ∉ s.m_drapeSubroutes →
        ∀ h ∈ s.m_drapeSubroutes, h ∉ s2.m_drapeSubroutes) := by
  refine ⟨_, OnRebuildRouteReady_ok_eq env route s, ?_⟩
  by_cases hlen : route.poly.length < 2
  · simp [hlen, afterInsertRoute, afterRemoveRoute, afterSendIfAttached, hengine,
      CallRouteBuilded, removeEvents]
    exact fun h hh => Or.inr hh
  · simp only [hlen, if_false, afterInsertRoute, afterRemoveRoute, afterSendIfAttached, hengine,
      CallRouteBuilded, rebuiltHandle, engineBeforeInsert]
    refine ⟨by simp, by simp, ?_, ?_⟩
    · intro h hh
      simp only [List.mem_append, removeEvents, List.mem_map]
      exact Or.inl (Or.inl (Or.inr ⟨h, hh, rfl⟩))
    · intro hfresh h hh
      simp only [List.nil_append, List.mem_singleton]
      intro heq
      exact hfresh (heq ▸ hh)

/-- C7 as amended, while following a route with the handles 3 and 4 recorded and an engine
attached that hands out 5 next: the rebuild succeeds with a polyline of three points. -/
theorem OnRebuildRouteReady_succeeded_witness :
    ∃ s2, OnRebuildRouteReady specEnv threePointRoute ResultCode.NoError followingState =
        Except.ok s2 ∧
      s2.m_drapeSubroutes = [5] ∧
      (∀ h ∈ followingState.m_drapeSubroutes,
        Event.Engine (EngineCall.RemoveRouteSegment h false) ∈ s2.trace) ∧
      ∀ h ∈ followingState.m_drapeSubroutes, h ∉ s2.m_drapeSubroutes :=
  (OnRebuildRouteReady_succeeded specEnv threePointRoute followingState
    { myPosition := none, nextId := 5, installed := [3, 4] } rfl).imp
    fun _ h => ⟨h.1, h.2.1, h.2.2.2.1, h.2.2.2.2 (by decide)⟩

/-- C7 as stated fails with no engine attached: detach the engine while following a route with the
handles 3 and 4 recorded (SetDrapeEngine(nullptr)), then let the rebuild succeed.  The handles 3
and 4 are still recorded, no RemoveRouteSegment and no AddRouteSegment was called, and the only
call is the notification. -/
theorem OnRebuildRouteReady_detached_keeps_handles :
    recordedHandles (SetDrapeEngine specEnv none false followingState) = some [3, 4] ∧
      recordedHandles (SetDrapeEngine specEnv none false followingState >>=
        OnRebuildRouteReady specEnv threePointRoute ResultCode.NoError) = some [3, 4] ∧
      tracedCalls (SetDrapeEngine specEnv none false followingState >>=
        OnRebuildRouteReady specEnv threePointRoute ResultCode.NoError) =
          some [Event.RoutingCallback ResultCode.NoError []] :=
  ⟨rfl, rfl, rfl⟩

/-- C8 as amended: after a SetRouter(P) that changes the current router type, and provided
FromString reads back as P the name that ToString gives P, GetLastUsedRouter, in this or any
later manager over the same settings, gives P for Vehicle, Pedestrian and Bicycle, and Vehicle
for Taxi.  A SetRouter(P) with P already current returns the state it was called in, so
GetLastUsedRouter gives what it gave before the call. -/
theorem SetRouter_then_GetLastUsedRouter (env : Env σ ε) (s next : State σ ε) (P : RouterType)
    (hnext : next.settings.str = (SetRouter env P s).settings.str) :
    (s.m_currentRouterType ≠ P → env.FromString (env.ToString P) = P →
        GetLastUsedRouter env next = restoredRouter P ∧
        (P = RouterType.Vehicle ∨ P = RouterType.Pedestrian ∨ P = RouterType.Bicycle →
          GetLastUsedRouter env next = P) ∧
        (P = RouterType.Taxi → GetLastUsedRouter env next = RouterType.Vehicle)) ∧
      (s.m_currentRouterType = P →
        SetRouter env P s = s ∧ GetLastUsedRouter env next = GetLastUsedRouter env s) := by
  constructor
  · intro hchange hround
    have hget : GetLastUsedRouter env next = restoredRouter P := by
      simp only [GetLastUsedRouter, hnext, SetRouter, hchange, if_false, SetRouterImpl,
        SetLastUsedRouter, if_true, hround]
      cases P <;> rfl
    refine ⟨hget, ?_, ?_⟩
    · rintro (h | h | h) <;> rw [hget, h] <;> rfl
    · intro h; rw [hget, h]; rfl
  · intro hsame
    have hset : SetRouter env P s = s := by simp [SetRouter, hsame]
    refine ⟨hset, ?_⟩
    rw [hset] at hnext
    simp only [GetLastUsedRouter, hnext]

/-- C8 as amended, for Bicycle chosen in a manager whose router was Vehicle; the next manager
starts from the settings left behind. -/
theorem SetRouter_then_GetLastUsedRouter_witness :
    GetLastUsedRouter specEnv
      { initialState with settings := (SetRouter specEnv RouterType.Bicycle initialState).settings } =
        RouterType.Bicycle :=
  (((SetRouter_then_GetLastUsedRouter specEnv initialState
    { initialState with settings := (SetRouter specEnv RouterType.Bicycle initialState).settings }
    RouterType.Bicycle rfl).1 (by decide) rfl).2.1 (Or.inr (Or.inr rfl)))

/-- C8 as stated fails twice.  After SetRouter(Taxi) the stored name is read back as Vehicle.
And SetRouter(Vehicle) in a manager whose current router is already Vehicle returns before
SetLastUsedRouter, so an older "pedestrian" in the settings store survives and is what
GetLastUsedRouter returns. -/
theorem GetLastUsedRouter_not_always_the_router_set :
    GetLastUsedRouter specEnv (SetRouter specEnv RouterType.Taxi initialState) =
        RouterType.Vehicle ∧
      (SetRouter specEnv RouterType.Taxi initialState).m_currentRouterType = RouterType.Taxi ∧
      GetLastUsedRouter specEnv (SetRouter specEnv RouterType.Vehicle pedestrianStoredState) =
        RouterType.Pedestrian := by
  refine ⟨?_, rfl, ?_⟩ <;> decide

/-- The handlers take a route and a code and nothing that identifies the submission, and they
treat every call alike.  OnBuildRouteReady always returns, having made calls on the engine only
and then notified the result callback once with the code it was given; OnRebuildRouteReady
with NoError does the same. -/
theorem completion_handlers_always_notify (env : Env σ ε) (route : Route) (code : ResultCode)
    (s : State σ ε) :
    (∃ mid, EngineCallsOnly s mid ∧
        OnBuildRouteReady env route code s =
          Except.ok (CallRouteBuilded code
            (if code = ResultCode.NoError then [] else route.absentCountries) mid)) ∧
      ∃ mid, EngineCallsOnly s mid ∧
        OnRebuildRouteReady env route ResultCode.NoError s =
          Except.ok (CallRouteBuilded ResultCode.NoError [] mid) := by
  constructor
  · by_cases hcode : code = ResultCode.NoError
    · subst hcode
      have h0 := afterSendIfAttached_engineOnly env EngineCall.RemoveAllRoutePreviewSegments s
      have h1 := h0.trans (afterInsertRoute_engineOnly env route _)
      have h2 := h1.trans (afterSendIfAttached_engineOnly env EngineCall.StopLocationFollow _)
      by_cases hv : route.isValid = true
      · refine ⟨_, h2.trans (afterSendIfAttached_engineOnly env
          (EngineCall.SetModelViewRect
            (env.RectScale (env.GetLimitRect route.poly) kRouteScaleMultiplier) true (-1) true) _), ?_⟩
        rw [OnBuildRouteReady_ok_eq]
        simp [hv]
      · refine ⟨_, h2, ?_⟩
        rw [OnBuildRouteReady_ok_eq]
        simp [hv]
    · have h0 := afterSendIfAttached_engineOnly env EngineCall.RemoveAllRoutePreviewSegments s
      by_cases hm : code = ResultCode.NeedMoreMaps
      · refine ⟨_, h0, ?_⟩
        rw [OnBuildRouteReady_failed_eq env route code s hcode]
        simp [hcode, hm]
      · refine ⟨_, h0.trans (afterRemoveRoute_engineOnly env true _), ?_⟩
        rw [OnBuildRouteReady_failed_eq env route code s hcode]
        simp [hcode, hm]
  · exact ⟨_, ((afterSendIfAttached_engineOnly env EngineCall.RemoveAllRoutePreviewSegments s).trans
      (afterRemoveRoute_engineOnly env false _)).trans (afterInsertRoute_engineOnly env route _),
      OnRebuildRouteReady_ok_eq env route s⟩

/-- What the handlers do when nothing stands between them and a stale completion: BuildRoute is
called twice from a store holding Start = (0, 0) and Finish = (1, 1), and OnBuildRouteReady is
then called once for each submission.  Two submissions were made and nothing was recorded;
after the first call one segment is recorded, after both calls two segments are recorded and
the result callback has been notified twice. -/
theorem superseded_completion_is_acted_on :
    countCalls Event.isSessionBuildRoute supersededRun = some 2 ∧
      recordedHandles supersededRun = some [] ∧
      recordedHandles (supersededRun >>=
        OnBuildRouteReady specEnv threePointRoute ResultCode.NoError) = some [0] ∧
      recordedHandles bothCompletions = some [0, 1] ∧
      countCalls Event.isRoutingCallback bothCompletions = some 2 := by
  unfold bothCompletions
  rw [supersededRun_eq]
  exact ⟨rfl, rfl, rfl, rfl, rfl⟩

/-- C10 fails in the code: with no engine attached, OnLocationUpdate dereferences m_drapeEngine
for SetGpsInfo; SetDrapeEngine(nullptr, true) while a route is followed dereferences it for
EnablePerspective; and BuildRoute with a live-position point dereferences it for
GetMyPosition.  RemoveRoute, by contrast, checks the pointer and returns the state unchanged. -/
theorem detached_engine_is_dereferenced :
    faultOf (OnLocationUpdate specEnv someFix detachedState) = some Fault.nullDrapeEngine ∧
      faultOf (SetDrapeEngine specEnv none true followingState) = some Fault.nullDrapeEngine ∧
      faultOf (BuildRoute specEnv 10 detachedLiveState) = some Fault.nullDrapeEngine ∧
      faultOf (RemoveRoute specEnv true detachedState) = none :=
  ⟨rfl, rfl, rfl, rfl⟩

/-- C11: when the resolved route points are `front`, any intermediate points `mid` and `back`,
pairwise not equal up to kEps, and the current router is one of the four router types,
BuildRoute returns and its last two calls are SetUserCurrentPosition(front) and the routing
session's BuildRoute(front, back, timeoutSec); no call before them is a BuildRoute of the
session.  The positions of `mid` do not occur in the arguments. -/
theorem BuildRoute_submits_first_and_last (env : Env σ ε) (timeoutSec : Nat) (s : State σ ε)
    (marks mid : List RouteMarkData) (front back : RouteMarkData)
    (hstore : s.m_bmManager = some marks)
    (hres : updateMyPosition env s.m_drapeEngine (RoutePointsLayout.GetRoutePoints marks) =
      Except.ok (some (front :: (mid ++ [back]))))
    (hdistinct : PairwiseDistinct env kEps (front :: (mid ++ [back])))
    (hrouter : s.m_currentRouterType ≠ RouterType.Count) :
    ∃ s2 pre, BuildRoute env timeoutSec s = Except.ok s2 ∧
      s2.trace = s.trace ++ pre ++
        [Event.SessionSetUserCurrentPosition front.m_position,
          Event.SessionBuildRoute front.m_position back.m_position timeoutSec] ∧
      ∀ ev ∈ pre, Event.isSessionBuildRoute ev = false := by
  have hlen := updateMyPosition_length env s.m_drapeEngine _ _ hres
  rw [GetRoutePoints_length] at hlen
  have hmany : ¬ marks.length < 2 := by
    simp only [List.length_cons, List.length_append, List.length_nil] at hlen
    omega
  have hback : (front :: (mid ++ [back])).getLast? = some back := by
    rw [← List.cons_append, List.getLast?_append]
    simp
  have hbuild := BuildRoute_validated env timeoutSec s marks (front :: (mid ++ [back])) front back
    hstore hmany hres ((hasEqualPoints_eq_false_iff env kEps _).mpr hdistinct) rfl hback
  obtain ⟨pre, htrace, hpre⟩ :=
    afterStartBuild_trace env timeoutSec (front :: (mid ++ [back])) front back s
  exact ⟨_, pre, hbuild.trans (startBuild_eq env timeoutSec _ front back s hrouter), htrace,
    fun ev hev => (hpre ev hev).1⟩

/-- C11 at the store Start = (0, 0), intermediate (5, 5) and (7, 2), Finish = (1, 1): the
session is asked for a route from (0, 0) to (1, 1). -/
theorem BuildRoute_submits_first_and_last_witness :
    ∃ s2 pre, BuildRoute specEnv 10 fourPointState = Except.ok s2 ∧
      s2.trace = fourPointState.trace ++ pre ++
        [Event.SessionSetUserCurrentPosition { x := 0, y := 0 },
          Event.SessionBuildRoute { x := 0, y := 0 } { x := 1, y := 1 } 10] ∧
      ∀ ev ∈ pre, Event.isSessionBuildRoute ev = false :=
  BuildRoute_submits_first_and_last specEnv 10 fourPointState
    [markAt RouteMarkType.Start 0 0, markAt RouteMarkType.Intermediate 5 5,
      markAt RouteMarkType.Intermediate 7 2, markAt RouteMarkType.Finish 1 1]
    [markAt RouteMarkType.Intermediate 5 5, markAt RouteMarkType.Intermediate 7 2]
    (markAt RouteMarkType.Start 0 0) (markAt RouteMarkType.Finish 1 1)
    rfl rfl (by norm_num [PairwiseDistinct, specEnv, EqualDxDy, markAt, kEps]) (by decide)

/-- C12 as amended: with an engine attached and one of the four router types current, a
BuildRoute that passes validation returns with the engine still attached, in some state `e2`.
Its completion OnBuildRouteReady(route, NoError) with a polyline of at least two points,
whatever state `n` the session has reached by then, calls AddRouteSegment once and leaves
recorded the handles recorded before the BuildRoute (none of them when routing was active,
since BuildRoute then closes the previous route) followed by the handle that this
AddRouteSegment returned.  So that handle is the only one recorded when routing was active or
nothing was recorded at the time of the BuildRoute. -/
theorem BuildRoute_then_ready_handles (env : Env σ ε) (timeoutSec : Nat) (s : State σ ε)
    (marks mid : List RouteMarkData) (front back : RouteMarkData) (route : Route) (e : ε) (n : σ)
    (hstore : s.m_bmManager = some marks)
    (hres : updateMyPosition env s.m_drapeEngine (RoutePointsLayout.GetRoutePoints marks) =
      Except.ok (some (front :: (mid ++ [back]))))
    (hdistinct : PairwiseDistinct env kEps (front :: (mid ++ [back])))
    (hrouter : s.m_currentRouterType ≠ RouterType.Count)
    (hengine : s.m_drapeEngine = some e) (hpoly : 2 ≤ route.poly.length) :
    ∃ s2 e2 s3, BuildRoute env timeoutSec s = Except.ok s2 ∧
      s2.m_drapeEngine = some e2 ∧
      OnBuildRouteReady env route ResultCode.NoError { s2 with m_routingSession := n } =
        Except.ok s3 ∧
      s3.m_drapeSubroutes =
        (if env.IsActive s.m_routingSession then [] else s.m_drapeSubroutes) ++
          [builtHandle env route s.m_currentRouterType e2] ∧
      s3.trace = s2.trace ++ builtEvents env route s.m_currentRouterType e2 ∧
      (env.IsActive s.m_routingSession = true ∨ s.m_drapeSubroutes = [] →
        s3.m_drapeSubroutes = [builtHandle env route s.m_currentRouterType e2]) := by
  have hlen := updateMyPosition_length env s.m_drapeEngine _ _ hres
  rw [GetRoutePoints_length] at hlen
  have hmany : ¬ marks.length < 2 := by
    simp only [List.length_cons, List.length_append, List.length_nil] at hlen
    omega
  have hback : (front :: (mid ++ [back])).getLast? = some back := by
    rw [← List.cons_append, List.getLast?_append]
    simp
  have hbuild := (BuildRoute_validated env timeoutSec s marks (front :: (mid ++ [back])) front
    back hstore hmany hres ((hasEqualPoints_eq_false_iff env kEps _).mpr hdistinct) rfl
    hback).trans (startBuild_eq env timeoutSec _ front back s hrouter)
  obtain ⟨hsub, htype, e2, he2⟩ :=
    afterStartBuild_attached env timeoutSec (front :: (mid ++ [back])) front back s e hengine
  obtain ⟨s3, hready, hsub3, htrace3⟩ := OnBuildRouteReady_ok_attached_trace env route
    { afterStartBuild env timeoutSec (front :: (mid ++ [back])) front back s with
      m_routingSession := n } e2 he2 hpoly
  have hsub3b : s3.m_drapeSubroutes =
      (if env.IsActive s.m_routingSession then [] else s.m_drapeSubroutes) ++
        [builtHandle env route s.m_currentRouterType e2] := by
    rw [hsub3, ← hsub, ← htype]
  have htrace3b : s3.trace =
      (afterStartBuild env timeoutSec (front :: (mid ++ [back])) front back s).trace ++
        builtEvents env route s.m_currentRouterType e2 := by
    rw [htrace3, ← htype]
  refine ⟨_, e2, s3, hbuild, he2, hready, hsub3b, htrace3b, ?_⟩
  intro hcase
  rw [hsub3b]
  rcases hcase with h | h
  · simp [h]
  · simp [h]

/-- C12 as amended, for a manager that has built nothing: Start = (0, 0), Finish = (1, 1), a
polyline of three points; the one handle recorded is the one the engine handed out. -/
theorem BuildRoute_then_ready_handles_witness :
    ∃ s2 e2 s3, BuildRoute specEnv 10 twoPointState = Except.ok s2 ∧
      s2.m_drapeEngine = some e2 ∧
      OnBuildRouteReady specEnv threePointRoute ResultCode.NoError
        { s2 with m_routingSession := { idleSession with state := NavigationState.Built } } =
          Except.ok s3 ∧
      s3.m_drapeSubroutes = [builtHandle specEnv threePointRoute RouterType.Vehicle e2] :=
  (BuildRoute_then_ready_handles specEnv 10 twoPointState
    [markAt RouteMarkType.Start 0 0, markAt RouteMarkType.Finish 1 1] []
    (markAt RouteMarkType.Start 0 0) (markAt RouteMarkType.Finish 1 1) threePointRoute freshEngine
    { idleSession with state := NavigationState.Built }
    rfl rfl (by norm_num [PairwiseDistinct, specEnv, EqualDxDy, markAt, kEps]) (by decide) rfl
    (by decide)).elim
    fun s2 h2 => h2.elim fun e2 h3 => h3.elim fun s3 h =>
      ⟨s2, e2, s3, h.1, h.2.1, h.2.2.1, h.2.2.2.2.2 (Or.inr rfl)⟩

/-- C12 as stated fails in a reachable state with an engine attached.  A route is built and its
segment, handle 0, recorded; the engine is detached; routing is closed, which without an engine
removes nothing from the record; the same engine is attached again.  Now the engine is
attached, handle 0 is still recorded, and the next BuildRoute with its completion leaves two
handles recorded, 0 and 1. -/
theorem stale_handle_survives_reattach :
    attachedEngine builtRun = some engineWithOneSegment ∧
      recordedHandles builtRun = some [0] ∧
      attachedEngine reattachedRun = some engineWithOneSegment ∧
      recordedHandles reattachedRun = some [0] ∧
      recordedHandles rebuiltAfterReattach = some [0, 1] := by
  rw [rebuiltAfterReattach_eq, reattachedRun, builtRun_eq]
  exact ⟨rfl, rfl, rfl, rfl, rfl⟩

end Claims

end RoutingManager

namespace ugc

section Claims

variable {U : Type}

/-- C13 fails in the code: the closure that Api::SetUGCUpdate pushes calls SetUGCUpdate, not
SetUGCUpdateImpl.  On an Api with nothing else queued, however many turns the worker thread
takes, the storage has received nothing and the queue holds the same closure again; while
SetUGCUpdateImpl, which nothing calls, is what hands the update to the storage. -/
theorem SetUGCUpdate_never_reaches_storage (emptyUpdate : U) (id : FeatureID) (u : U) (n : Nat) :
    ((runNext emptyUpdate)^[n] (Api.SetUGCUpdate id u emptyApi)).m_storage = [] ∧
      ((runNext emptyUpdate)^[n] (Api.SetUGCUpdate id u emptyApi)).m_thread =
        [Task.callSetUGCUpdate id u] ∧
      (Api.SetUGCUpdateImpl id u emptyApi).m_storage = [(id, u)] := by
  have hfix : runNext emptyUpdate (Api.SetUGCUpdate id u emptyApi) =
      Api.SetUGCUpdate id u emptyApi := rfl
  have hiter : (runNext emptyUpdate)^[n] (Api.SetUGCUpdate id u emptyApi) =
      Api.SetUGCUpdate id u emptyApi := by
    induction n with
    | zero => rfl
    | succ k ih => rw [Function.iterate_succ_apply, hfix, ih]
  rw [hiter]
  exact ⟨rfl, rfl, rfl⟩

end Claims

end ugc
